import Mathlib

/-! The signal-tower firmware: a shallow embedding of `src/main.cpp`.

The firmware is one translation unit of global variables and functions.  The
globals become the fields of `Controller`; every function of the source becomes a
function on `Controller` with the same name.  The hardware the firmware talks to
is made explicit state:

* the EEPROM is a map from byte address to byte (`Controller.eeprom`);
* the three lamp pins are a map from pin number to level (`Controller.pins`);
* the serial receive side is the list of bytes still to be read
  (`Controller.serialIn`), the transmit side the list of bytes written so far
  (`Controller.serialOut`);
* the value returned by `analogRead(PIN_AMBIENT)` is an argument of
  `processSensors`;
* the ArduinoJson parser `parseObject` is an argument of the handlers that call
  it: its result is `none` when `json.success()` is false.

`int` is the 16-bit `int` of the AVR target, `uint8_t` assignments reduce modulo
256, `size_t` is 16 bits wide.  Writing through the end of `buffer` is undefined
behaviour: the model marks it in `Controller.overrun` and states nothing about the
program after it.
-/

namespace SignalTower

/-- Byte strings (`String`, `char[]`) are lists of characters. -/
abbrev Str := List Char

/-! ## Constants (main.cpp 12-32, 41) -/

def PIN_GREEN : Nat := 13
def PIN_RED : Nat := 12
def PIN_YELLOW : Nat := 11

def MAGIC_NUMBER : Nat := 0xCAFE
def DEFAULT_THRESHOLD : Nat := 100
def DEFAULT_HYSTERESIS : Nat := 5
def EEPROM_MAGIC_ADDR : Nat := 0
/-- The threshold follows the marker: `EEPROM_MAGIC_ADDR + sizeof(magic)`, `magic` a `uint16_t`. -/
def EEPROM_THRESHOLD_ADDR : Nat := EEPROM_MAGIC_ADDR + 2
/-- The hysteresis follows the threshold: `EEPROM_THRESHOLD_ADDR + sizeof(hysteresis)`, a `uint8_t`. -/
def EEPROM_HYSTERESIS_ADDR : Nat := EEPROM_THRESHOLD_ADDR + 1

def BUFFER_LENGTH : Int := 100

/-- The request method (main.cpp 34-36). -/
inductive Method where
  | GET
  | PUT
  deriving DecidableEq, Repr

/-! ## The EEPROM (EEPROMex calls used by the firmware) -/

namespace EEPROM

/-- Store one byte at an address. -/
def write (mem : Nat → Nat) (addr value : Nat) : Nat → Nat :=
  fun i => if i = addr then value % 256 else mem i

/-- Read one byte. -/
def read (mem : Nat → Nat) (addr : Nat) : Nat :=
  mem addr % 256

/-- Read a 16-bit word, low byte first. -/
def readInt (mem : Nat → Nat) (addr : Nat) : Nat :=
  read mem addr + 256 * read mem (addr + 1)

/-- Write a 16-bit word, low byte first. -/
def writeInt (mem : Nat → Nat) (addr value : Nat) : Nat → Nat :=
  write (write mem addr (value % 256)) (addr + 1) (value / 256)

/-- The firmware only writes blocks of one byte (`sizeof(threshold)`, `sizeof(hysteresis)`). -/
def writeBlock (mem : Nat → Nat) (addr value : Nat) : Nat → Nat :=
  write mem addr value

/-- The firmware only reads blocks of one byte. -/
def readBlock (mem : Nat → Nat) (addr : Nat) : Nat :=
  read mem addr

end EEPROM

/-! ## The controller state (main.cpp 17-42) -/

/-- The global variables of the firmware together with the hardware state.  `overrun`
records that `Serial.readBytes` has stored more than `BUFFER_LENGTH` bytes into
`buffer`: the write reached the last element of the array, which the code relies on as
the terminating NUL, or went past the array.  From then on the behaviour of the program
is undefined and the other fields no longer describe it. -/
structure Controller where
  green : Bool
  red : Bool
  yellow : Bool
  mute : Bool
  ambient : Int
  magic : Nat
  threshold : Nat
  hysteresis : Nat
  contentLength : Int
  method : Method
  path : Str
  buffer : Str
  eeprom : Nat → Nat
  pins : Nat → Bool
  serialIn : Str
  serialOut : Str
  overrun : Bool

/-- The NUL character that ends a C string. -/
def NUL : Char := Char.ofNat 0

/-- State at power-on, before `setup`: statics are zero-initialised, nothing was sent. -/
def powerOn (eeprom : Nat → Nat) (serialIn : Str) : Controller :=
  { green := false, red := false, yellow := false, mute := false, ambient := 0,
    magic := 0, threshold := 0, hysteresis := 0, contentLength := 0,
    method := Method.GET, path := [], buffer := List.replicate 101 NUL,
    eeprom := eeprom, pins := fun _ => false, serialIn := serialIn, serialOut := [],
    overrun := false }

/-! ## Lamp outputs and the sensor state machine (main.cpp 104-119) -/

/-- The call `digitalWrite(pin, level)`. -/
def digitalWrite (pin : Nat) (level : Bool) (s : Controller) : Controller :=
  { s with pins := fun p => if p = pin then level else s.pins p }

def updateLeds (s : Controller) : Controller :=
  let s := digitalWrite PIN_GREEN (s.green && !s.mute) s
  let s := digitalWrite PIN_RED (s.red && !s.mute) s
  digitalWrite PIN_YELLOW (s.yellow && !s.mute) s

/-- A value stored into a 16-bit `int`: reduced into `[-32768, 32767]`. -/
def toInt16 (v : Int) : Int :=
  (v + 32768) % 65536 - 32768

/-- Arduino's `map`: `(x - in_min) * (out_max - out_min) / (in_max - in_min) + out_min`
with C division, which truncates toward zero. -/
def map (x in_min in_max out_min out_max : Int) : Int :=
  Int.tdiv ((x - in_min) * (out_max - out_min)) (in_max - in_min) + out_min

/-- One sensor poll; `raw` is what `analogRead(PIN_AMBIENT)` returns.  The cast `(int)` and
the `int` sum and difference of the two settings are 16-bit. -/
def processSensors (raw : Int) (s : Controller) : Controller :=
  let s := { s with ambient := toInt16 (map raw 0 1023 0 255) }
  if s.mute && decide (s.ambient > toInt16 ((s.threshold : Int) + (s.hysteresis : Int))) then
    updateLeds { s with mute := false }
  else if !s.mute && decide (s.ambient < toInt16 ((s.threshold : Int) - (s.hysteresis : Int))) then
    updateLeds { s with mute := true }
  else
    s

/-! ## Settings store and start-up (main.cpp 60-102, 186-198) -/

def readEeprom (s : Controller) : Controller :=
  let s := { s with magic := EEPROM.readInt s.eeprom EEPROM_MAGIC_ADDR }
  if s.magic ≠ MAGIC_NUMBER then
    let s := { s with eeprom := EEPROM.writeInt s.eeprom EEPROM_MAGIC_ADDR MAGIC_NUMBER }
    let s := { s with hysteresis := DEFAULT_HYSTERESIS }
    let s := { s with eeprom := EEPROM.writeBlock s.eeprom EEPROM_THRESHOLD_ADDR s.threshold }
    let s := { s with threshold := DEFAULT_THRESHOLD }
    { s with eeprom := EEPROM.writeBlock s.eeprom EEPROM_HYSTERESIS_ADDR s.hysteresis }
  else
    let s := { s with threshold := EEPROM.readBlock s.eeprom EEPROM_THRESHOLD_ADDR }
    { s with hysteresis := EEPROM.readBlock s.eeprom EEPROM_HYSTERESIS_ADDR }

/-- One round of the self test: each lamp is switched on and off again (the delays
between the writes are not modelled). -/
def selfTestRound (s : Controller) : Controller :=
  let s := digitalWrite PIN_GREEN true s
  let s := digitalWrite PIN_GREEN false s
  let s := digitalWrite PIN_YELLOW true s
  let s := digitalWrite PIN_YELLOW false s
  let s := digitalWrite PIN_RED true s
  digitalWrite PIN_RED false s

def selfTest (s : Controller) : Controller :=
  selfTestRound (selfTestRound (selfTestRound (selfTestRound s)))

def setup (s : Controller) : Controller :=
  let s := readEeprom s
  let s := { s with green := false, red := false, yellow := false, mute := false,
                    contentLength := 0 }
  let s := selfTest s
  updateLeds s

/-! ## Response writer (main.cpp 245-266) -/

def CRLF : Str := ['\r', '\n']

/-- Decimal digits of a number, as `Serial.print` writes an unsigned value. -/
def printNat (n : Nat) : Str := Nat.toDigits 10 n

/-- Decimal digits of a signed number, as `Serial.print` writes an `int`. -/
def printInt (n : Int) : Str :=
  if n < 0 then '-' :: printNat n.natAbs else printNat n.natAbs

/-- The call `Serial.print(text)`. -/
def serialPrint (text : Str) (s : Controller) : Controller :=
  { s with serialOut := s.serialOut ++ text }

/-- The call `Serial.println(text)`: the text followed by carriage return and line feed. -/
def serialPrintln (text : Str) (s : Controller) : Controller :=
  serialPrint (text ++ CRLF) s

/-- The overload `sendResponse(int status, String content)`. -/
def sendResponse (status : Int) (content : Str) (s : Controller) : Controller :=
  let s := serialPrint "HTTP/1.1 ".toList s
  let s := serialPrintln (printInt status) s
  let s := serialPrintln "Connection: close".toList s
  let s := serialPrint "Content-Length: ".toList s
  let s := serialPrintln (printNat content.length) s
  let s := serialPrintln "Content-Type: application/json".toList s
  let s := serialPrintln [] s
  if content.length > 0 then serialPrintln content s else s

/-! ## JSON values (the part of ArduinoJson the handlers use) -/

/-- The values the handlers store in and read from a JSON object: a boolean or a whole
number. -/
inductive JsonValue where
  | bool (b : Bool)
  | int (n : Int)
  deriving DecidableEq, Repr

/-- A JSON object: its members in order. -/
abbrev JsonObject := List (Str × JsonValue)

/-- The call `json.containsKey(key)`. -/
def containsKey (json : JsonObject) (key : Str) : Bool :=
  (json.lookup key).isSome

/-- The conversion of a member to `bool`. -/
def JsonValue.asBool : JsonValue → Bool
  | JsonValue.bool b => b
  | JsonValue.int n => n != 0

/-- The conversion of a member to `int`: a number is reduced to the 16 bits of an `int`. -/
def JsonValue.asInt : JsonValue → Int
  | JsonValue.bool b => if b then 1 else 0
  | JsonValue.int n => toInt16 n

/-- The expression `json[key]` read as a `bool` (a missing member reads as `false`). -/
def getBool (json : JsonObject) (key : Str) : Bool :=
  match json.lookup key with
  | some v => v.asBool
  | none => false

/-- The expression `json[key]` read as an `int` (a missing member reads as `0`). -/
def getInt (json : JsonObject) (key : Str) : Int :=
  match json.lookup key with
  | some v => v.asInt
  | none => 0

/-- Text of one value as `printTo` writes it. -/
def printValue : JsonValue → Str
  | JsonValue.bool true => "true".toList
  | JsonValue.bool false => "false".toList
  | JsonValue.int n => printInt n

/-- Text of one member: the quoted key, a colon, the value. -/
def printMember (m : Str × JsonValue) : Str :=
  '"' :: (m.1 ++ ('"' :: ':' :: printValue m.2))

/-- Text of the members, separated by commas. -/
def printMembers : JsonObject → Str
  | [] => []
  | [m] => printMember m
  | m :: rest => printMember m ++ (',' :: printMembers rest)

/-- The call `content.printTo(responseString)`: the compact text of the object. -/
def printTo (json : JsonObject) : Str :=
  Char.ofNat 123 :: (printMembers json ++ [Char.ofNat 125])

/-- The overload `sendResponse(int status, JsonObject &content)`. -/
def sendResponseJson (status : Int) (content : JsonObject) (s : Controller) : Controller :=
  sendResponse status (printTo content) s

/-- The overload `sendResponse(int status)`. -/
def sendResponseStatus (status : Int) (s : Controller) : Controller :=
  sendResponse status [] s

/-! ## Request body (main.cpp 240-243) -/

/-- The string a `char` array holds: the characters before the first NUL. -/
def cString (buf : Str) : Str :=
  buf.takeWhile (fun c => c != NUL)

/-- The conversion `(size_t) n` of an `int`: the value modulo 2^16. -/
def toSizeT (n : Int) : Nat :=
  (n % 65536).toNat

/-- The call `Serial.readBytes(buffer, length)`: up to `length` received bytes are taken
from the stream and stored from the start of the buffer; the rest of the buffer keeps
its content.  Storing more than `BUFFER_LENGTH` bytes overruns the array of
`BUFFER_LENGTH + 1` elements or its terminating element: `overrun` is set, and what the
fields hold after that is not the state of the program. -/
def readBytes (length : Nat) (s : Controller) : Controller :=
  let bytes := s.serialIn.take length
  { s with buffer := bytes ++ s.buffer.drop bytes.length,
           serialIn := s.serialIn.drop length,
           overrun := s.overrun || decide ((bytes.length : Int) > BUFFER_LENGTH) }

/-- Returns the body string and the state after reading it. -/
def readContent (s : Controller) : Str × Controller :=
  let s := readBytes (toSizeT (min s.contentLength BUFFER_LENGTH)) s
  (cString s.buffer, s)

/-! ## Handlers (main.cpp 121-184) -/

def getSensors (s : Controller) : Controller :=
  sendResponseJson 200 [("ambient".toList, JsonValue.int s.ambient)] s

def getLeds (s : Controller) : Controller :=
  sendResponseJson 200
    [("green".toList, JsonValue.bool s.green), ("yellow".toList, JsonValue.bool s.yellow),
     ("red".toList, JsonValue.bool s.red), ("muted".toList, JsonValue.bool s.mute)] s

def putLeds (parseObject : Str → Option JsonObject) (s : Controller) : Controller :=
  let (content, s) := readContent s
  match parseObject content with
  | some json =>
    let s := if containsKey json "green".toList then
               { s with green := getBool json "green".toList } else s
    let s := if containsKey json "red".toList then
               { s with red := getBool json "red".toList } else s
    let s := if containsKey json "yellow".toList then
               { s with yellow := getBool json "yellow".toList } else s
    let s := updateLeds s
    sendResponseStatus 204 s
  | none => sendResponseStatus 400 s

def getSettings (s : Controller) : Controller :=
  sendResponseJson 200
    [("threshold".toList, JsonValue.int s.threshold),
     ("hysteresis".toList, JsonValue.int s.hysteresis)] s

def putSettings (parseObject : Str → Option JsonObject) (s : Controller) : Controller :=
  let (content, s) := readContent s
  match parseObject content with
  | some json =>
    let s := if containsKey json "threshold".toList then
               let s := { s with threshold :=
                 (max 0 (min 255 (getInt json "threshold".toList))).toNat % 256 }
               { s with eeprom := EEPROM.writeBlock s.eeprom EEPROM_THRESHOLD_ADDR s.threshold }
             else s
    let s := if containsKey json "hysteresis".toList then
               let s := { s with hysteresis :=
                 (max 0 (min 255 (getInt json "hysteresis".toList))).toNat % 256 }
               { s with eeprom := EEPROM.writeBlock s.eeprom EEPROM_HYSTERESIS_ADDR s.hysteresis }
             else s
    sendResponseStatus 204 s
  | none => sendResponseStatus 400 s

/-! ## Request parser and router (main.cpp 200-238) -/

/-- The method `line.startsWith(text)`. -/
def startsWith (line text : Str) : Bool :=
  text.isPrefixOf line

/-- The method `line.indexOf(ch, fromIndex)`: the position of the first `ch` at or after
`fromIndex`, `-1` when there is none or `fromIndex` is past the end. -/
def indexOf (line : Str) (ch : Char) (fromIndex : Nat) : Int :=
  if fromIndex ≥ line.length then -1
  else
    let rest := line.drop fromIndex
    let k := (rest.takeWhile (fun c => c != ch)).length
    if k < rest.length then ((fromIndex + k : Nat) : Int) else -1

/-- The method `line.substring(left, right)`: the characters from `left` up to, not
including, `right`; the two are swapped when `left > right`, and `right` is cut at the
length. -/
def substring (line : Str) (left right : Nat) : Str :=
  let lo := if left > right then right else left
  let hi := if left > right then left else right
  (line.take hi).drop lo

def parsePath (line : Str) : Str :=
  let firstPathChar : Int := indexOf line ' ' 0 + 1
  let nextPathChar : Int := indexOf line ' ' firstPathChar.toNat
  let nextPathChar : Int := if nextPathChar = -1 then (line.length : Int) else nextPathChar
  substring line firstPathChar.toNat nextPathChar.toNat

/-- The call `Serial.readStringUntil(terminator)`: the received bytes before the first
terminator (all of them when there is none) and what is left after it; the terminator is
consumed. -/
def readStringUntil (terminator : Char) (input : Str) : Str × Str :=
  (input.takeWhile (fun c => c != terminator),
   (input.dropWhile (fun c => c != terminator)).drop 1)

/-- White space as `sscanf` skips it before a number. -/
def isSpace (c : Char) : Bool :=
  c == ' ' || c == '\t' || c == '\n' || c == '\r' || c == Char.ofNat 11 || c == Char.ofNat 12

/-- Value of a run of decimal digits. -/
def digitsValue (digits : Str) : Nat :=
  digits.foldl (fun acc d => 10 * acc + (d.toNat - 48)) 0

/-- The call `sscanf(text, "%d", &target)`: white space, an optional sign and decimal
digits; `old` is the value of the target, kept when no number is found. -/
def sscanfInt (text : Str) (old : Int) : Int :=
  let t := text.dropWhile isSpace
  let negative := t.head? == some '-'
  let t := if t.head? == some '-' || t.head? == some '+' then t.drop 1 else t
  let digits := t.takeWhile Char.isDigit
  if digits.length = 0 then old
  else toInt16 (if negative then -(digitsValue digits : Int) else (digitsValue digits : Int))

def parseHttp (parseObject : Str → Option JsonObject) (s : Controller) : Controller :=
  let (line, rest) := readStringUntil '\n' s.serialIn
  let s := { s with serialIn := rest }
  if startsWith line "Content-Length: ".toList then
    { s with contentLength := sscanfInt (line.drop 16) s.contentLength }
  else if startsWith line "GET".toList then
    { s with method := Method.GET, path := parsePath line }
  else if startsWith line "PUT".toList then
    { s with method := Method.PUT, path := parsePath line }
  else if line = ['\r'] then
    let s :=
      if startsWith s.path "/reset".toList then
        setup (sendResponseStatus 200 s)
      else if startsWith s.path "/sensors".toList && s.method = Method.GET then
        getSensors s
      else if startsWith s.path "/leds".toList && s.method = Method.GET then
        getLeds s
      else if startsWith s.path "/leds".toList && s.method = Method.PUT then
        putLeds parseObject s
      else if startsWith s.path "/settings".toList && s.method = Method.GET then
        getSettings s
      else if startsWith s.path "/settings".toList && s.method = Method.PUT then
        putSettings parseObject s
      else
        sendResponseStatus 404 s
    { s with contentLength := 0 }
  else
    s

/-- One pass of `loop`: a request line is handled when input is available, then the
sensor is polled; `raw` is the sample read in this pass. -/
def loop (parseObject : Str → Option JsonObject) (raw : Int) (s : Controller) : Controller :=
  let s := if s.serialIn.length > 0 then parseHttp parseObject s else s
  processSensors raw s

/-- Passes of `loop`, one for each sensor sample of the list. -/
def run (parseObject : Str → Option JsonObject) : List Int → Controller → Controller
  | [], s => s
  | raw :: raws, s => run parseObject raws (loop parseObject raw s)

/-! ## A parser to run the handlers with

The handlers take the ArduinoJson parser as an argument, and the theorems below hold
for every parser.  `flatObject` is one such parser, for the objects this protocol
exchanges, so that the handlers can be evaluated on concrete requests. -/

def QUOTE : Char := Char.ofNat 34
def LBRACE : Char := Char.ofNat 123
def RBRACE : Char := Char.ofNat 125

/-- Reads a quoted key without escapes; returns it and the text after the closing quote. -/
def readKey (text : Str) : Option (Str × Str) :=
  if text.head? == some QUOTE then
    let body := text.drop 1
    let key := body.takeWhile (fun c => c != QUOTE)
    let after := body.dropWhile (fun c => c != QUOTE)
    if after.head? == some QUOTE then some (key, after.drop 1) else none
  else none

/-- Reads `true`, `false` or a decimal integer; returns it and the text after it. -/
def readValue (text : Str) : Option (JsonValue × Str) :=
  if startsWith text "true".toList then some (JsonValue.bool true, text.drop 4)
  else if startsWith text "false".toList then some (JsonValue.bool false, text.drop 5)
  else
    let negative := text.head? == some '-'
    let t := if negative then text.drop 1 else text
    let digits := t.takeWhile Char.isDigit
    if digits.length = 0 then none
    else some (JsonValue.int (if negative then -(digitsValue digits : Int)
                              else (digitsValue digits : Int)), t.drop digits.length)

/-- Reads the members of an object up to its closing brace; `fuel` bounds their number. -/
def readMembers : Nat → Str → Option JsonObject
  | 0, _ => none
  | fuel + 1, text =>
    match readKey (text.dropWhile isSpace) with
    | none => none
    | some (key, text) =>
      let text := text.dropWhile isSpace
      if text.head? == some ':' then
        match readValue ((text.drop 1).dropWhile isSpace) with
        | none => none
        | some (value, text) =>
          let text := text.dropWhile isSpace
          if text.head? == some ',' then
            (readMembers fuel (text.drop 1)).map (fun members => (key, value) :: members)
          else if text.head? == some RBRACE then some [(key, value)]
          else none
      else none

/-- Reads an object of keys and `true`/`false`/integer values; text after the closing
brace is not looked at. -/
def flatObject (text : Str) : Option JsonObject :=
  let t := text.dropWhile isSpace
  if t.head? == some LBRACE then
    let t := (t.drop 1).dropWhile isSpace
    if t.head? == some RBRACE then some [] else readMembers text.length t
  else none

/-! ## What the specification says, to compare the code with -/

/-- The operations a request can be dispatched to (spec 4.2). -/
inductive Route where
  | reset
  | getSensors
  | getLeds
  | putLeds
  | getSettings
  | putSettings
  | notFound
  deriving DecidableEq, Repr

/-- The routing table of spec 4.2 in its priority order: path prefix, the method
required (`none`: any), the operation. -/
def routeTable : List (Str × Option Method × Route) :=
  [("/reset".toList, none, Route.reset),
   ("/sensors".toList, some Method.GET, Route.getSensors),
   ("/leds".toList, some Method.GET, Route.getLeds),
   ("/leds".toList, some Method.PUT, Route.putLeds),
   ("/settings".toList, some Method.GET, Route.getSettings),
   ("/settings".toList, some Method.PUT, Route.putSettings)]

/-- The first entry of the routing table whose prefix and method match, else not found. -/
def routeOf (method : Method) (path : Str) : Route :=
  match routeTable.find? (fun e => e.1.isPrefixOf path && (e.2.1 == none || e.2.1 == some method)) with
  | some e => e.2.2
  | none => Route.notFound

/-- The response of spec 6: status line, connection close, content length, content
type, a blank line, then the body when it is not empty. -/
def wireResponse (status : Int) (body : Str) : Str :=
  "HTTP/1.1 ".toList ++ printInt status ++ "\r\n".toList
    ++ "Connection: close\r\n".toList
    ++ "Content-Length: ".toList ++ printNat body.length ++ "\r\n".toList
    ++ "Content-Type: application/json\r\n".toList
    ++ "\r\n".toList
    ++ body

/-- The handler the firmware runs for an operation. -/
def runRoute (parseObject : Str → Option JsonObject) (route : Route) (s : Controller) :
    Controller :=
  match route with
  | Route.reset => setup (sendResponseStatus 200 s)
  | Route.getSensors => getSensors s
  | Route.getLeds => getLeds s
  | Route.putLeds => putLeds parseObject s
  | Route.getSettings => getSettings s
  | Route.putSettings => putSettings parseObject s
  | Route.notFound => sendResponseStatus 404 s

/-- The value of an intent after a sequence of bodies (spec 8): that of the last body
that names it, `init` when none does. -/
def lastNamed (key : Str) (init : Bool) : List JsonObject → Bool
  | [] => init
  | json :: rest => lastNamed key (if containsKey json key then getBool json key else init) rest

/-- A sequence of accepted PUT /leds requests: `LedsRun parseObject s bodies t` holds
when `putLeds` runs once for each body of the list, in order, each time on a state
whose body parses to it, and `t` is the state after the last; between two requests the
state may change in any way that keeps the three intents. -/
inductive LedsRun (parseObject : Str → Option JsonObject) :
    Controller → List JsonObject → Controller → Prop where
  | done (s : Controller) : LedsRun parseObject s [] s
  | put (s u t : Controller) (json : JsonObject) (rest : List JsonObject) :
      parseObject (readContent s).1 = some json →
      u.green = (putLeds parseObject s).green →
      u.red = (putLeds parseObject s).red →
      u.yellow = (putLeds parseObject s).yellow →
      LedsRun parseObject u rest t →
      LedsRun parseObject s (json :: rest) t

/-! ## Reachable states and the output invariant -/

/-- The states the controller can be in between two passes of `loop`: the state after
`setup` at power-on, any state after more bytes have arrived on the serial line, and
any state after one more pass of `loop` with any sensor sample.  A reachable state with
`overrun` set stands for a run that has written through the end of the buffer; only the
states without it are states of the program. -/
inductive Reachable (parseObject : Str → Option JsonObject) : Controller → Prop where
  | boot (eeprom : Nat → Nat) (input : Str) :
      Reachable parseObject (setup (powerOn eeprom input))
  | receive (s : Controller) (bytes : Str) :
      Reachable parseObject s →
      Reachable parseObject { s with serialIn := s.serialIn ++ bytes }
  | pass (s : Controller) (raw : Int) :
      Reachable parseObject s → Reachable parseObject (loop parseObject raw s)

/-- The effective-output invariant of spec 3: every lamp pin is driven with the intent
and not mute. -/
def OutputsOk (s : Controller) : Prop :=
  s.pins PIN_GREEN = (s.green && !s.mute) ∧
  s.pins PIN_RED = (s.red && !s.mute) ∧
  s.pins PIN_YELLOW = (s.yellow && !s.mute)

instance (s : Controller) : Decidable (OutputsOk s) := by
  unfold OutputsOk
  infer_instance

/-- Sensor polls in a row, one for each sample of the list. -/
def senseAll : List Int → Controller → Controller
  | [], s => s
  | raw :: raws, s => senseAll raws (processSensors raw s)

/-- The mute flag as spec 4.4 asks for it: the lower bound `threshold - hysteresis`
clamped at 0, the upper bound `threshold + hysteresis` clamped at 255. -/
def clampedMute (threshold hysteresis : Nat) (ambient : Int) (mute : Bool) : Bool :=
  if mute && decide (ambient > min 255 ((threshold : Int) + (hysteresis : Int))) then false
  else if !mute && decide (ambient < max 0 ((threshold : Int) - (hysteresis : Int))) then true
  else mute

/-- The mute flag computed in 8-bit unsigned arithmetic, where the bounds wrap modulo 256. -/
def wrappedMute (threshold hysteresis : Nat) (ambient : Int) (mute : Bool) : Bool :=
  if mute && decide (ambient > (((threshold : Int) + (hysteresis : Int)) % 256)) then false
  else if !mute && decide (ambient < (((threshold : Int) - (hysteresis : Int)) % 256)) then true
  else mute

/-! ## Concrete states to evaluate the code on -/

/-- An EEPROM that was never written: every byte is `0xFF`. -/
def blankEeprom : Nat → Nat := fun _ => 255

/-- The controller after `setup` on a blank EEPROM, with the given bytes received. -/
def bootState (input : Str) : Controller :=
  setup (powerOn blankEeprom input)

/-- The controller that has read the request line `PUT /frobnicate HTTP/1.1` and has the
terminator line next in its input. -/
def frobnicateRequest : Controller :=
  parseHttp flatObject (bootState "PUT /frobnicate HTTP/1.1\r\n\r\n".toList)

/-- The controller at the entry of a PUT handler: the request line named `path`, the
header gave the content length `length`, and `body` is what the stream holds next. -/
def putRequest (path : Str) (length : Int) (body : Str) : Controller :=
  { bootState body with method := Method.PUT, path := path, contentLength := length }

/-- A PUT /leds request whose body switches the green lamp on. -/
def greenOnBody : Controller :=
  putRequest "/leds".toList 14 "\x7b\"green\":true\x7d".toList

/-- A PUT /settings request whose body sets both settings. -/
def settingsBody : Controller :=
  putRequest "/settings".toList 33 "\x7b\"threshold\":120,\"hysteresis\":7\x7d".toList

/-- A PUT request whose body is an opening brace and nothing else. -/
def malformedBody : Controller :=
  putRequest "/leds".toList 1 [LBRACE]

/-- Bytes of three requests in a row: a PUT /leds with a body that switches green on,
a reset, and a PUT /leds without a `Content-Length` header and without a body. -/
def staleBodyInput : Str :=
  "PUT /leds HTTP/1.1\r\nContent-Length: 14\r\n\r\n\x7b\"green\":true\x7d".toList
    ++ "GET /reset HTTP/1.1\r\n\r\n".toList
    ++ "PUT /leds HTTP/1.1\r\n\r\n".toList

/-- The controller after six passes of `loop` over `staleBodyInput` in bright light: the
first two requests are answered, the request line of the third is read and its
terminator line is next. -/
def staleBodyState : Controller :=
  run flatObject [1023, 1023, 1023, 1023, 1023, 1023] (bootState staleBodyInput)

/-- The controller after five passes of `loop` over `staleBodyInput`: green has been
switched on, the request line of the reset is read and its terminator line is next. -/
def resetRequest : Controller :=
  run flatObject [1023, 1023, 1023, 1023] (bootState staleBodyInput)

/-- A PUT /leds request whose body names all three lamps. -/
def allLampsBody : Controller :=
  putRequest "/leds".toList 40 "\x7b\"green\":true,\"red\":false,\"yellow\":true\x7d".toList

/-- The members of the body of `allLampsBody`. -/
def allLampsJson : JsonObject :=
  [("green".toList, JsonValue.bool true), ("red".toList, JsonValue.bool false),
   ("yellow".toList, JsonValue.bool true)]

/-- Bytes of a PUT /leds request whose body switches the green lamp on. -/
def greenOnInput : Str :=
  "PUT /leds HTTP/1.1\r\nContent-Length: 14\r\n\r\n\x7b\"green\":true\x7d".toList

/-- The controller after three passes of `loop` over `greenOnInput` in bright light: the
request is answered and green is on. -/
def greenOnState : Controller :=
  loop flatObject 1023 (loop flatObject 1023 (loop flatObject 1023
    (setup (powerOn blankEeprom greenOnInput))))

/-- Bytes of a PUT /leds request that announces the content length -1, followed by 150
more bytes. -/
def negativeLengthInput : Str :=
  "PUT /leds HTTP/1.1\r\nContent-Length: -1\r\n\r\n".toList ++ List.replicate 150 'A'

/-- The controller after two passes of `loop` over `negativeLengthInput`: the request
line and the header are read, the terminator line is next. -/
def negativeLengthState : Controller :=
  loop flatObject 1023 (loop flatObject 1023
    (setup (powerOn blankEeprom negativeLengthInput)))

/-- Bytes of two requests in a row: a PUT /settings with a body of 16 bytes, then a
PUT /leds with a body of 14 bytes. -/
def leftoverInput : Str :=
  "PUT /settings HTTP/1.1\r\nContent-Length: 16\r\n\r\n\x7b\"threshold\":50\x7d".toList
    ++ "PUT /leds HTTP/1.1\r\nContent-Length: 14\r\n\r\n\x7b\"green\":true\x7d".toList

/-- The controller after five passes of `loop` over `leftoverInput`: the first request is
answered, request line and header of the second are read, its terminator line is next. -/
def leftoverState : Controller :=
  loop flatObject 1023 (loop flatObject 1023 (loop flatObject 1023
    (loop flatObject 1023 (loop flatObject 1023
      (setup (powerOn blankEeprom leftoverInput))))))

/-- Bytes of two requests in a row: a PUT /leds that switches green on, then a POST
/leds with a body that asks for green off. -/
def postInput : Str :=
  "PUT /leds HTTP/1.1\r\nContent-Length: 14\r\n\r\n\x7b\"green\":true\x7d".toList
    ++ "POST /leds HTTP/1.1\r\nContent-Length: 15\r\n\r\n\x7b\"green\":false\x7d".toList

/-- The controller after five passes of `loop` over `postInput`: the PUT is answered,
request line and header of the POST are read, its terminator line is next. -/
def postState : Controller :=
  loop flatObject 1023 (loop flatObject 1023 (loop flatObject 1023
    (loop flatObject 1023 (loop flatObject 1023
      (setup (powerOn blankEeprom postInput))))))

/-- Bytes of three requests in a row: a PUT /leds with a body that switches green on,
a reset, and a PUT /leds whose body is a lone opening brace. -/
def braceAfterGreenInput : Str :=
  "PUT /leds HTTP/1.1\r\nContent-Length: 14\r\n\r\n\x7b\"green\":true\x7d".toList
    ++ "GET /reset HTTP/1.1\r\n\r\n".toList
    ++ "PUT /leds HTTP/1.1\r\nContent-Length: 1\r\n\r\n\x7b".toList

/-- The controller after seven passes of `loop` over `braceAfterGreenInput`: the first
two requests are answered, request line and header of the third are read, its
terminator line is next. -/
def braceAfterGreenState : Controller :=
  loop flatObject 1023 (loop flatObject 1023 (loop flatObject 1023
    (loop flatObject 1023 (loop flatObject 1023 (loop flatObject 1023
      (loop flatObject 1023 (setup (powerOn blankEeprom braceAfterGreenInput))))))))

end SignalTower

namespace SignalTower

/-! ## Lemmas on the lamp outputs and the sensor step -/

@[simp] theorem digitalWrite_green (p : Nat) (l : Bool) (s : Controller) :
    (digitalWrite p l s).green = s.green := rfl
@[simp] theorem digitalWrite_red (p : Nat) (l : Bool) (s : Controller) :
    (digitalWrite p l s).red = s.red := rfl
@[simp] theorem digitalWrite_yellow (p : Nat) (l : Bool) (s : Controller) :
    (digitalWrite p l s).yellow = s.yellow := rfl
@[simp] theorem digitalWrite_mute (p : Nat) (l : Bool) (s : Controller) :
    (digitalWrite p l s).mute = s.mute := rfl

theorem updateLeds_eq (s : Controller) :
    updateLeds s = { s with pins := (updateLeds s).pins } := rfl

@[simp] theorem updateLeds_green (s : Controller) : (updateLeds s).green = s.green := rfl
@[simp] theorem updateLeds_red (s : Controller) : (updateLeds s).red = s.red := rfl
@[simp] theorem updateLeds_yellow (s : Controller) : (updateLeds s).yellow = s.yellow := rfl
@[simp] theorem updateLeds_mute (s : Controller) : (updateLeds s).mute = s.mute := rfl
@[simp] theorem updateLeds_ambient (s : Controller) : (updateLeds s).ambient = s.ambient := rfl
@[simp] theorem updateLeds_threshold (s : Controller) :
    (updateLeds s).threshold = s.threshold := rfl
@[simp] theorem updateLeds_hysteresis (s : Controller) :
    (updateLeds s).hysteresis = s.hysteresis := rfl
@[simp] theorem updateLeds_eeprom (s : Controller) : (updateLeds s).eeprom = s.eeprom := rfl
@[simp] theorem updateLeds_serialOut (s : Controller) :
    (updateLeds s).serialOut = s.serialOut := rfl

/-- The sensor step stores the mapped sample. -/
theorem processSensors_ambient (raw : Int) (s : Controller) :
    (processSensors raw s).ambient = toInt16 (map raw 0 1023 0 255) := by
  unfold processSensors
  dsimp only
  split_ifs <;> rfl

/-- The mute flag after the sensor step, in terms of the stored sample. -/
theorem processSensors_mute (raw : Int) (s : Controller) :
    (processSensors raw s).mute =
      if s.mute && decide ((processSensors raw s).ambient >
            toInt16 ((s.threshold : Int) + (s.hysteresis : Int))) then false
      else if !s.mute && decide ((processSensors raw s).ambient <
            toInt16 ((s.threshold : Int) - (s.hysteresis : Int))) then true
      else s.mute := by
  rw [processSensors_ambient]
  unfold processSensors
  dsimp only
  split_ifs <;> rfl

/-- Every value of `[0,255]` is the image of a raw sample of `[0,1023]`. -/
theorem map_onto (a : Int) (h0 : 0 ≤ a) (h1 : a ≤ 255) :
    ∃ raw : Int, 0 ≤ raw ∧ raw ≤ 1023 ∧ toInt16 (map raw 0 1023 0 255) = a := by
  refine ⟨4 * a + (a + 84) / 85, by omega, by omega, ?_⟩
  have hmap : map (4 * a + (a + 84) / 85) 0 1023 0 255 = a := by
    unfold map
    rw [Int.tdiv_eq_ediv (by omega) (by omega)]
    simp only [sub_zero, add_zero]
    omega
  rw [hmap]
  unfold toInt16
  omega

/-! ## The claims -/

/-- C1: for threshold and hysteresis in [0,255], every ambient value `a` in [0,255]
(each one is the image of some raw sample) and every prior mute flag `m`, a
`processSensors` step that reads `a` sets mute to true exactly when the controller was
Active and `a < threshold - hysteresis`, sets it to false exactly when it was Muted and
`a > threshold + hysteresis`, and otherwise leaves it unchanged; inside the dead zone
`[threshold - hysteresis, threshold + hysteresis]` nothing changes. -/
theorem processSensors_hysteresis (t h : Nat) (a : Int) (m : Bool)
    (ht : t ≤ 255) (hh : h ≤ 255) (ha0 : 0 ≤ a) (ha1 : a ≤ 255) :
    (∃ raw : Int, 0 ≤ raw ∧ raw ≤ 1023 ∧ toInt16 (map raw 0 1023 0 255) = a) ∧
    ∀ (s : Controller) (raw : Int),
      s.threshold = t → s.hysteresis = h → s.mute = m →
      (processSensors raw s).ambient = a →
      ((m = false ∧ (processSensors raw s).mute = true) ↔
          (m = false ∧ a < (t : Int) - (h : Int))) ∧
      ((m = true ∧ (processSensors raw s).mute = false) ↔
          (m = true ∧ a > (t : Int) + (h : Int))) ∧
      (¬ (m = false ∧ a < (t : Int) - (h : Int)) →
        ¬ (m = true ∧ a > (t : Int) + (h : Int)) → (processSensors raw s).mute = m) ∧
      ((t : Int) - (h : Int) ≤ a → a ≤ (t : Int) + (h : Int) →
        (processSensors raw s).mute = m) := by
  refine ⟨map_onto a ha0 ha1, ?_⟩
  intro s raw hst hsh hsm hsa
  have hsum : toInt16 ((t : Int) + (h : Int)) = (t : Int) + (h : Int) := by
    unfold toInt16; omega
  have hdiff : toInt16 ((t : Int) - (h : Int)) = (t : Int) - (h : Int) := by
    unfold toInt16; omega
  have hmute := processSensors_mute raw s
  rw [hsa, hst, hsh, hsm, hsum, hdiff] at hmute
  rw [hmute]
  cases m
  · simp
    omega
  · simp

/-- C1 at threshold 100, hysteresis 5: an Active controller reading 94 becomes Muted. -/
theorem processSensors_hysteresis_witness :
    (∃ raw : Int, 0 ≤ raw ∧ raw ≤ 1023 ∧ toInt16 (map raw 0 1023 0 255) = 94) ∧
    ∀ (s : Controller) (raw : Int),
      s.threshold = 100 → s.hysteresis = 5 → s.mute = false →
      (processSensors raw s).ambient = 94 →
      ((false = false ∧ (processSensors raw s).mute = true) ↔
          (false = false ∧ (94 : Int) < ((100 : Nat) : Int) - ((5 : Nat) : Int))) ∧
      ((false = true ∧ (processSensors raw s).mute = false) ↔
          (false = true ∧ (94 : Int) > ((100 : Nat) : Int) + ((5 : Nat) : Int))) ∧
      (¬ (false = false ∧ (94 : Int) < ((100 : Nat) : Int) - ((5 : Nat) : Int)) →
        ¬ (false = true ∧ (94 : Int) > ((100 : Nat) : Int) + ((5 : Nat) : Int)) →
        (processSensors raw s).mute = false) ∧
      (((100 : Nat) : Int) - ((5 : Nat) : Int) ≤ 94 →
        (94 : Int) ≤ ((100 : Nat) : Int) + ((5 : Nat) : Int) →
        (processSensors raw s).mute = false) :=
  processSensors_hysteresis 100 5 94 false (by decide) (by decide) (by decide) (by decide)

/-- The chain of tests in `parseHttp` picks the handler of the routing table. -/
theorem dispatch_eq_runRoute (parseObject : Str → Option JsonObject) (s : Controller) :
    (if startsWith s.path "/reset".toList then
        setup (sendResponseStatus 200 s)
      else if startsWith s.path "/sensors".toList && s.method = Method.GET then
        getSensors s
      else if startsWith s.path "/leds".toList && s.method = Method.GET then
        getLeds s
      else if startsWith s.path "/leds".toList && s.method = Method.PUT then
        putLeds parseObject s
      else if startsWith s.path "/settings".toList && s.method = Method.GET then
        getSettings s
      else if startsWith s.path "/settings".toList && s.method = Method.PUT then
        putSettings parseObject s
      else
        sendResponseStatus 404 s) = runRoute parseObject (routeOf s.method s.path) s := by
  unfold routeOf routeTable startsWith
  rcases Bool.eq_false_or_eq_true (List.isPrefixOf "/reset".toList s.path) with hb1 | hb1 <;>
  rcases Bool.eq_false_or_eq_true (List.isPrefixOf "/sensors".toList s.path) with hb2 | hb2 <;>
  rcases Bool.eq_false_or_eq_true (List.isPrefixOf "/leds".toList s.path) with hb3 | hb3 <;>
  rcases Bool.eq_false_or_eq_true (List.isPrefixOf "/settings".toList s.path) with hb4 | hb4 <;>
  rcases (show s.method = Method.GET ∨ s.method = Method.PUT by cases s.method <;> simp)
    with hm | hm <;>
  simp only [hb1, hb2, hb3, hb4, hm, List.find?, runRoute, Bool.true_and, Bool.false_and,
    Bool.and_true, Bool.and_false, Bool.or_true, Bool.or_false, Bool.true_or, Bool.false_or,
    decide_True, decide_False, if_true, if_false, beq_self_eq_true, reduceCtorEq,
    Bool.false_eq_true, decide_eq_true_eq, ite_true, ite_false] <;> rfl

/-- On the terminator line the handler of the routing table runs and `contentLength` is reset. -/
theorem parseHttp_terminator (parseObject : Str → Option JsonObject) (s : Controller)
    (hline : (readStringUntil '\n' s.serialIn).1 = ['\r']) :
    parseHttp parseObject s =
      { runRoute parseObject (routeOf s.method s.path)
          { s with serialIn := (readStringUntil '\n' s.serialIn).2 } with
        contentLength := 0 } := by
  have h1 : startsWith ['\r'] "Content-Length: ".toList = false := by decide
  have h2 : startsWith ['\r'] "GET".toList = false := by decide
  have h3 : startsWith ['\r'] "PUT".toList = false := by decide
  have hd := dispatch_eq_runRoute parseObject
    { s with serialIn := (readStringUntil '\n' s.serialIn).2 }
  unfold parseHttp
  simp only [hline, h1, h2, h3]
  exact congrArg (fun u : Controller => { u with contentLength := 0 }) hd



/-- A response without content is the response of the specification with an empty body. -/
theorem sendResponseStatus_eq (status : Int) (s : Controller) :
    sendResponseStatus status s =
      { s with serialOut := s.serialOut ++ wireResponse status [] } := by
  simp [sendResponseStatus, sendResponse, serialPrint, serialPrintln, wireResponse, CRLF,
    List.append_assoc]

/-- Start-up writes nothing to the serial line. -/
theorem setup_serialOut (s : Controller) : (setup s).serialOut = s.serialOut := by
  unfold setup readEeprom
  dsimp only
  split_ifs <;> rfl

/-- C2: on the terminator line `parseHttp` runs the handler that the routing table of the
specification selects for the stored method and path, by prefix match in priority
order, and then resets `contentLength`; a reset answers 200 with an empty body, a
request matching no entry answers 404 with an empty body and changes nothing else;
characters after a route prefix do not change the route, and `/frobnicate` is not
found for GET and for PUT. -/
theorem parseHttp_dispatch (parseObject : Str → Option JsonObject) (s : Controller)
    (hline : (readStringUntil '\n' s.serialIn).1 = ['\r']) :
    parseHttp parseObject s =
      { runRoute parseObject (routeOf s.method s.path)
          { s with serialIn := (readStringUntil '\n' s.serialIn).2 } with
        contentLength := 0 } ∧
    (routeOf s.method s.path = Route.reset →
      (parseHttp parseObject s).serialOut = s.serialOut ++ wireResponse 200 []) ∧
    (routeOf s.method s.path = Route.notFound →
      parseHttp parseObject s =
        { s with serialIn := (readStringUntil '\n' s.serialIn).2,
                 serialOut := s.serialOut ++ wireResponse 404 [],
                 contentLength := 0 }) ∧
    (∀ (m : Method) (tail : Str),
      routeOf m ("/reset".toList ++ tail) = Route.reset ∧
      routeOf Method.GET ("/sensors".toList ++ tail) = Route.getSensors ∧
      routeOf Method.GET ("/leds".toList ++ tail) = Route.getLeds ∧
      routeOf Method.PUT ("/leds".toList ++ tail) = Route.putLeds ∧
      routeOf Method.GET ("/settings".toList ++ tail) = Route.getSettings ∧
      routeOf Method.PUT ("/settings".toList ++ tail) = Route.putSettings) ∧
    routeOf Method.GET "/frobnicate".toList = Route.notFound ∧
    routeOf Method.PUT "/frobnicate".toList = Route.notFound := by
  have hmain := parseHttp_terminator parseObject s hline
  refine ⟨hmain, ?_, ?_, ?_, by decide, by decide⟩
  · intro hr
    rw [hmain, hr]
    simp only [runRoute]
    rw [setup_serialOut, sendResponseStatus_eq]
  · intro hr
    rw [hmain, hr]
    simp only [runRoute]
    rw [sendResponseStatus_eq]
  · intro m tail
    refine ⟨?_, ?_, ?_, ?_, ?_, ?_⟩
    · cases m <;> simp [routeOf, routeTable, List.find?, List.isPrefixOf]
    all_goals simp [routeOf, routeTable, List.find?, List.isPrefixOf] <;> rfl



/-- C2 on a request for `/frobnicate` with method PUT: the terminator line is answered
with 404 and nothing else changes. -/
theorem parseHttp_dispatch_witness :
    (readStringUntil '\n' (frobnicateRequest).serialIn).1 = ['\r'] ∧
    parseHttp flatObject frobnicateRequest =
      { frobnicateRequest with
          serialIn := (readStringUntil '\n' (frobnicateRequest).serialIn).2,
          serialOut := (frobnicateRequest).serialOut ++ wireResponse 404 [],
          contentLength := 0 } :=
  ⟨by decide, (parseHttp_dispatch flatObject frobnicateRequest (by decide)).2.2.1 (by decide)⟩

/-! ## PUT /leds -/

/-- Reading the body touches only the buffer, the input stream and the overrun mark. -/
theorem readContent_snd (s : Controller) :
    (readContent s).2 =
      { s with buffer := (readContent s).2.buffer, serialIn := (readContent s).2.serialIn,
               overrun := (readContent s).2.overrun } :=
  rfl

/-- The state `putLeds` produces when the body parses. -/
theorem putLeds_success (parseObject : Str → Option JsonObject) (s : Controller)
    (json : JsonObject) (hparse : parseObject (readContent s).1 = some json) :
    putLeds parseObject s =
      { updateLeds
          { (readContent s).2 with
              green := if containsKey json "green".toList then getBool json "green".toList
                       else s.green,
              red := if containsKey json "red".toList then getBool json "red".toList
                     else s.red,
              yellow := if containsKey json "yellow".toList then getBool json "yellow".toList
                        else s.yellow } with
        serialOut := s.serialOut ++ wireResponse 204 [] } := by
  unfold putLeds
  simp only [hparse]
  rw [sendResponseStatus_eq]
  split_ifs <;> rfl

/-- The state `putLeds` produces when the body does not parse. -/
theorem putLeds_failure (parseObject : Str → Option JsonObject) (s : Controller)
    (hparse : parseObject (readContent s).1 = none) :
    putLeds parseObject s =
      { (readContent s).2 with serialOut := s.serialOut ++ wireResponse 400 [] } := by
  unfold putLeds
  simp only [hparse]
  rw [sendResponseStatus_eq]
  rfl

/-- A member that is a boolean reads as that boolean. -/
theorem getBool_of_lookup (json : JsonObject) (key : Str) (b : Bool)
    (h : json.lookup key = some (JsonValue.bool b)) :
    containsKey json key = true ∧ getBool json key = b := by
  simp [containsKey, getBool, h, JsonValue.asBool]

/-- A key that is absent is not contained. -/
theorem containsKey_of_lookup_none (json : JsonObject) (key : Str)
    (h : json.lookup key = none) : containsKey json key = false := by
  simp [containsKey, h]

/-- Over a run of accepted PUT /leds requests each intent follows the last body naming it. -/
theorem ledsRun_lastNamed (parseObject : Str → Option JsonObject)
    (s t : Controller) (bodies : List JsonObject) (hrun : LedsRun parseObject s bodies t) :
    t.green = lastNamed "green".toList s.green bodies ∧
    t.red = lastNamed "red".toList s.red bodies ∧
    t.yellow = lastNamed "yellow".toList s.yellow bodies := by
  induction hrun with
  | done s => exact ⟨rfl, rfl, rfl⟩
  | put s u t json rest hparse hg hr hy _ ih =>
    rw [putLeds_success parseObject s json hparse] at hg hr hy
    have hg2 : u.green = if containsKey json "green".toList then getBool json "green".toList
        else s.green := hg
    have hr2 : u.red = if containsKey json "red".toList then getBool json "red".toList
        else s.red := hr
    have hy2 : u.yellow = if containsKey json "yellow".toList
        then getBool json "yellow".toList else s.yellow := hy
    simp only [lastNamed]
    rw [← hg2, ← hr2, ← hy2]
    exact ih

/-- C3: when the body of a PUT /leds parses as an object, `putLeds` overwrites exactly
the intents among green, red, yellow that are keys of it (a boolean member gives its
value), keeps each absent intent, keeps mute, threshold, hysteresis and the persisted
storage, and answers 204 with an empty body; over any sequence of such requests each
intent is the value of the last body naming it, or its initial value. -/
theorem putLeds_partial_update (parseObject : Str → Option JsonObject) (s : Controller)
    (json : JsonObject) (hparse : parseObject (readContent s).1 = some json) :
    ((putLeds parseObject s).green =
        if containsKey json "green".toList then getBool json "green".toList else s.green) ∧
    ((putLeds parseObject s).red =
        if containsKey json "red".toList then getBool json "red".toList else s.red) ∧
    ((putLeds parseObject s).yellow =
        if containsKey json "yellow".toList then getBool json "yellow".toList else s.yellow) ∧
    (∀ b : Bool, json.lookup "green".toList = some (JsonValue.bool b) →
        (putLeds parseObject s).green = b) ∧
    (∀ b : Bool, json.lookup "red".toList = some (JsonValue.bool b) →
        (putLeds parseObject s).red = b) ∧
    (∀ b : Bool, json.lookup "yellow".toList = some (JsonValue.bool b) →
        (putLeds parseObject s).yellow = b) ∧
    (json.lookup "green".toList = none → (putLeds parseObject s).green = s.green) ∧
    (json.lookup "red".toList = none → (putLeds parseObject s).red = s.red) ∧
    (json.lookup "yellow".toList = none → (putLeds parseObject s).yellow = s.yellow) ∧
    (putLeds parseObject s).mute = s.mute ∧
    (putLeds parseObject s).threshold = s.threshold ∧
    (putLeds parseObject s).hysteresis = s.hysteresis ∧
    (putLeds parseObject s).eeprom = s.eeprom ∧
    (putLeds parseObject s).serialOut = s.serialOut ++ wireResponse 204 [] ∧
    (∀ (t : Controller) (bodies : List JsonObject), LedsRun parseObject s bodies t →
        t.green = lastNamed "green".toList s.green bodies ∧
        t.red = lastNamed "red".toList s.red bodies ∧
        t.yellow = lastNamed "yellow".toList s.yellow bodies) := by
  have hput := putLeds_success parseObject s json hparse
  have hg : (putLeds parseObject s).green =
      if containsKey json "green".toList then getBool json "green".toList else s.green := by
    rw [hput]; rfl
  have hr : (putLeds parseObject s).red =
      if containsKey json "red".toList then getBool json "red".toList else s.red := by
    rw [hput]; rfl
  have hy : (putLeds parseObject s).yellow =
      if containsKey json "yellow".toList then getBool json "yellow".toList else s.yellow := by
    rw [hput]; rfl
  refine ⟨hg, hr, hy, ?_, ?_, ?_, ?_, ?_, ?_, ?_, ?_, ?_, ?_, ?_, ?_⟩
  · intro b hb
    rw [hg, (getBool_of_lookup json _ b hb).1, (getBool_of_lookup json _ b hb).2]; rfl
  · intro b hb
    rw [hr, (getBool_of_lookup json _ b hb).1, (getBool_of_lookup json _ b hb).2]; rfl
  · intro b hb
    rw [hy, (getBool_of_lookup json _ b hb).1, (getBool_of_lookup json _ b hb).2]; rfl
  · intro hn
    rw [hg, containsKey_of_lookup_none json _ hn]; rfl
  · intro hn
    rw [hr, containsKey_of_lookup_none json _ hn]; rfl
  · intro hn
    rw [hy, containsKey_of_lookup_none json _ hn]; rfl
  · rw [hput]; rfl
  · rw [hput]; rfl
  · rw [hput]; rfl
  · rw [hput]; rfl
  · rw [hput]
  · intro t bodies hrun
    exact ledsRun_lastNamed parseObject s t bodies hrun

/-! ## PUT /settings -/

/-- A value clamped to `[0,255]` is a byte. -/
theorem clamp_toNat_mod (v : Int) :
    (max 0 (min 255 v)).toNat % 256 = (max 0 (min 255 v)).toNat := by
  omega

/-- The state `putSettings` produces when the body parses. -/
theorem putSettings_success (parseObject : Str → Option JsonObject) (s : Controller)
    (json : JsonObject) (hparse : parseObject (readContent s).1 = some json) :
    putSettings parseObject s =
      { (readContent s).2 with
          threshold :=
            if containsKey json "threshold".toList then
              (max 0 (min 255 (getInt json "threshold".toList))).toNat
            else s.threshold,
          hysteresis :=
            if containsKey json "hysteresis".toList then
              (max 0 (min 255 (getInt json "hysteresis".toList))).toNat
            else s.hysteresis,
          eeprom := fun i =>
            if i = 3 ∧ containsKey json "hysteresis".toList = true then
              (max 0 (min 255 (getInt json "hysteresis".toList))).toNat
            else if i = 2 ∧ containsKey json "threshold".toList = true then
              (max 0 (min 255 (getInt json "threshold".toList))).toNat
            else s.eeprom i,
          serialOut := s.serialOut ++ wireResponse 204 [] } := by
  unfold putSettings
  simp only [hparse]
  rw [sendResponseStatus_eq]
  have ht := clamp_toNat_mod (getInt json "threshold".toList)
  have hh := clamp_toNat_mod (getInt json "hysteresis".toList)
  rcases Bool.eq_false_or_eq_true (containsKey json "threshold".toList) with h1 | h1 <;>
  rcases Bool.eq_false_or_eq_true (containsKey json "hysteresis".toList) with h2 | h2 <;>
  simp only [h1, h2, if_true, if_false, Bool.false_eq_true, and_true, and_false] <;>
  congr 1 <;>
  first
    | rfl
    | (funext i
       simp only [EEPROM.writeBlock, EEPROM.write, EEPROM_THRESHOLD_ADDR,
         EEPROM_HYSTERESIS_ADDR, EEPROM_MAGIC_ADDR, ht, hh]
       split_ifs <;> rfl)

/-- The state `putSettings` produces when the body does not parse. -/
theorem putSettings_failure (parseObject : Str → Option JsonObject) (s : Controller)
    (hparse : parseObject (readContent s).1 = none) :
    putSettings parseObject s =
      { (readContent s).2 with serialOut := s.serialOut ++ wireResponse 400 [] } := by
  unfold putSettings
  simp only [hparse]
  rw [sendResponseStatus_eq]
  rfl

/-- A number member reads as that number reduced to 16 bits. -/
theorem getInt_of_lookup (json : JsonObject) (key : Str) (v : Int)
    (h : json.lookup key = some (JsonValue.int v)) :
    containsKey json key = true ∧ getInt json key = toInt16 v := by
  simp [containsKey, getInt, h, JsonValue.asInt]

/-- C3 on a body that names green only: green is switched on, red keeps its value. -/
theorem putLeds_partial_update_witness :
    flatObject (readContent greenOnBody).1 = some [("green".toList, JsonValue.bool true)] ∧
    (putLeds flatObject greenOnBody).green = true ∧
    (putLeds flatObject greenOnBody).red = (greenOnBody).red :=
  ⟨by decide,
   (putLeds_partial_update flatObject greenOnBody [("green".toList, JsonValue.bool true)]
      (by decide)).2.2.2.1 true (by decide),
   (putLeds_partial_update flatObject greenOnBody [("green".toList, JsonValue.bool true)]
      (by decide)).2.2.2.2.2.2.2.1 (by decide)⟩

/-- When the string that `readContent` returns does not parse as an object, `putLeds` and
`putSettings` answer 400 with an empty body and keep green, red, yellow, mute,
threshold, hysteresis and every byte of the persisted storage. -/
theorem put_unparsed_content (parseObject : Str → Option JsonObject) (s : Controller)
    (hparse : parseObject (readContent s).1 = none) :
    ((putLeds parseObject s).serialOut = s.serialOut ++ wireResponse 400 [] ∧
      (putLeds parseObject s).green = s.green ∧
      (putLeds parseObject s).red = s.red ∧
      (putLeds parseObject s).yellow = s.yellow ∧
      (putLeds parseObject s).mute = s.mute ∧
      (putLeds parseObject s).threshold = s.threshold ∧
      (putLeds parseObject s).hysteresis = s.hysteresis ∧
      (putLeds parseObject s).eeprom = s.eeprom) ∧
    ((putSettings parseObject s).serialOut = s.serialOut ++ wireResponse 400 [] ∧
      (putSettings parseObject s).green = s.green ∧
      (putSettings parseObject s).red = s.red ∧
      (putSettings parseObject s).yellow = s.yellow ∧
      (putSettings parseObject s).mute = s.mute ∧
      (putSettings parseObject s).threshold = s.threshold ∧
      (putSettings parseObject s).hysteresis = s.hysteresis ∧
      (putSettings parseObject s).eeprom = s.eeprom) := by
  rw [putLeds_failure parseObject s hparse, putSettings_failure parseObject s hparse]
  exact ⟨⟨rfl, rfl, rfl, rfl, rfl, rfl, rfl, rfl⟩, ⟨rfl, rfl, rfl, rfl, rfl, rfl, rfl, rfl⟩⟩

/-! ## The settings store -/

/-- With a valid marker `readEeprom` loads the two stored bytes. -/
theorem readEeprom_valid (s : Controller)
    (h : EEPROM.readInt s.eeprom EEPROM_MAGIC_ADDR = MAGIC_NUMBER) :
    readEeprom s =
      { s with magic := MAGIC_NUMBER,
               threshold := EEPROM.readBlock s.eeprom EEPROM_THRESHOLD_ADDR,
               hysteresis := EEPROM.readBlock s.eeprom EEPROM_HYSTERESIS_ADDR } := by
  unfold readEeprom
  simp [h]

/-- With an invalid marker `readEeprom` writes the marker, the threshold that was in
memory on entry and the default hysteresis, and leaves the defaults in memory. -/
theorem readEeprom_invalid (s : Controller)
    (h : EEPROM.readInt s.eeprom EEPROM_MAGIC_ADDR ≠ MAGIC_NUMBER) :
    readEeprom s =
      { s with magic := EEPROM.readInt s.eeprom EEPROM_MAGIC_ADDR,
               threshold := DEFAULT_THRESHOLD,
               hysteresis := DEFAULT_HYSTERESIS,
               eeprom :=
                 EEPROM.writeBlock
                   (EEPROM.writeBlock
                     (EEPROM.writeInt s.eeprom EEPROM_MAGIC_ADDR MAGIC_NUMBER)
                     EEPROM_THRESHOLD_ADDR s.threshold)
                   EEPROM_HYSTERESIS_ADDR DEFAULT_HYSTERESIS } := by
  unfold readEeprom
  simp [h]

/-- C6: with a valid marker in storage, after `putSettings` has persisted threshold `T`
and hysteresis `H` (both in [0,255]), `readEeprom` on any controller holding that
storage, whatever its in-memory settings, loads threshold `T` and hysteresis `H`. -/
theorem settings_roundtrip (parseObject : Str → Option JsonObject) (s : Controller)
    (json : JsonObject) (T H : Nat) (hT : T ≤ 255) (hH : H ≤ 255)
    (hmarker : EEPROM.readInt s.eeprom EEPROM_MAGIC_ADDR = MAGIC_NUMBER)
    (hparse : parseObject (readContent s).1 = some json)
    (ht : json.lookup "threshold".toList = some (JsonValue.int T))
    (hh : json.lookup "hysteresis".toList = some (JsonValue.int H)) :
    ∀ u : Controller, u.eeprom = (putSettings parseObject s).eeprom →
      (readEeprom u).threshold = T ∧ (readEeprom u).hysteresis = H := by
  intro u hu
  obtain ⟨hct, hgt⟩ := getInt_of_lookup json _ (T : Int) ht
  obtain ⟨hch, hgh⟩ := getInt_of_lookup json _ (H : Int) hh
  rw [show toInt16 (T : Int) = (T : Int) by unfold toInt16; omega] at hgt
  rw [show toInt16 (H : Int) = (H : Int) by unfold toInt16; omega] at hgh
  have he : ∀ i, u.eeprom i =
      if i = 3 then H else if i = 2 then T else s.eeprom i := by
    intro i
    rw [hu, putSettings_success parseObject s json hparse]
    simp only [hct, hgt, hch, hgh, and_true]
    split_ifs <;> first | rfl | omega
  have hm : EEPROM.readInt u.eeprom EEPROM_MAGIC_ADDR = MAGIC_NUMBER := by
    rw [← hmarker]
    simp [EEPROM.readInt, EEPROM.read, EEPROM_MAGIC_ADDR, he]
  rw [readEeprom_valid u hm]
  simp only [EEPROM.readBlock, EEPROM.read, EEPROM_THRESHOLD_ADDR, EEPROM_HYSTERESIS_ADDR,
    EEPROM_MAGIC_ADDR, he]
  constructor
  · simp; omega
  · simp; omega

/-- C6 on the body setting threshold 120 and hysteresis 7: a reload yields 120 and 7. -/
theorem settings_roundtrip_witness :
    EEPROM.readInt (settingsBody).eeprom EEPROM_MAGIC_ADDR = MAGIC_NUMBER ∧
    ∀ u : Controller, u.eeprom = (putSettings flatObject settingsBody).eeprom →
      (readEeprom u).threshold = 120 ∧ (readEeprom u).hysteresis = 7 :=
  ⟨by decide,
   settings_roundtrip flatObject settingsBody
     [("threshold".toList, JsonValue.int 120), ("hysteresis".toList, JsonValue.int 7)]
     120 7 (by decide) (by decide) (by decide) (by decide) (by decide) (by decide)⟩

/-- C7: when the marker read from storage is not `0xCAFE`, `readEeprom` leaves the
defaults in memory, threshold 100 and hysteresis 5, whatever was in memory before. -/
theorem readEeprom_defaults (s : Controller)
    (h : EEPROM.readInt s.eeprom EEPROM_MAGIC_ADDR ≠ MAGIC_NUMBER) :
    (readEeprom s).threshold = 100 ∧ (readEeprom s).hysteresis = 5 := by
  rw [readEeprom_invalid s h]
  exact ⟨rfl, rfl⟩

/-- C7 at power-on with a blank EEPROM. -/
theorem readEeprom_defaults_witness :
    EEPROM.readInt (powerOn blankEeprom []).eeprom EEPROM_MAGIC_ADDR ≠ MAGIC_NUMBER ∧
    (readEeprom (powerOn blankEeprom [])).threshold = 100 ∧
    (readEeprom (powerOn blankEeprom [])).hysteresis = 5 :=
  ⟨by decide, readEeprom_defaults (powerOn blankEeprom []) (by decide)⟩

/-- C8 (the code departs from it): at first power-on with a blank EEPROM `readEeprom`
writes the marker and the default hysteresis 5, but at offset 2 it writes the threshold
that was in memory on entry, 0, not the default 100; a reboot then finds a valid marker
and loads threshold 0. -/
theorem readEeprom_persists_stale_threshold :
    EEPROM.readInt blankEeprom EEPROM_MAGIC_ADDR ≠ MAGIC_NUMBER ∧
    EEPROM.readInt (readEeprom (powerOn blankEeprom [])).eeprom EEPROM_MAGIC_ADDR
      = MAGIC_NUMBER ∧
    (readEeprom (powerOn blankEeprom [])).eeprom 3 = 5 ∧
    (readEeprom (powerOn blankEeprom [])).eeprom 2 = 0 ∧
    (readEeprom (powerOn (readEeprom (powerOn blankEeprom [])).eeprom [])).threshold = 0 ∧
    (readEeprom (powerOn (readEeprom (powerOn blankEeprom [])).eeprom [])).hysteresis = 5 := by
  decide

/-! ## The response writer and the body buffer -/

/-- What `sendResponse` writes: the response of the specification and, after a body that
is not empty, one more line end. -/
theorem sendResponse_serialOut (status : Int) (content : Str) (s : Controller) :
    (sendResponse status content s).serialOut =
      s.serialOut ++ wireResponse status content
        ++ (if content.length > 0 then CRLF else []) := by
  unfold sendResponse
  split_ifs with h
  · simp [serialPrint, serialPrintln, wireResponse, CRLF, List.append_assoc]
  · have hnil : content = [] := List.length_eq_zero.mp (by omega)
    subst hnil
    simp [serialPrint, serialPrintln, wireResponse, CRLF, List.append_assoc]

/-- C9 (the code departs from it): for status 200 and the 15-byte body
`{"ambient":255}` `sendResponse` announces `Content-Length: 15` and then writes 17
bytes after the blank line, the body followed by a carriage return and a line feed; the
output is not the response the specification describes. -/
theorem sendResponse_appends_line_end :
    (sendResponse 200 "\x7b\"ambient\":255\x7d".toList (bootState [])).serialOut =
      ("HTTP/1.1 200\r\nConnection: close\r\nContent-Length: 15\r\n".toList
        ++ "Content-Type: application/json\r\n\r\n".toList)
        ++ ("\x7b\"ambient\":255\x7d".toList ++ "\r\n".toList) ∧
    ("\x7b\"ambient\":255\x7d".toList ++ "\r\n".toList).length = 17 ∧
    (sendResponse 200 "\x7b\"ambient\":255\x7d".toList (bootState [])).serialOut ≠
      (bootState []).serialOut ++ wireResponse 200 "\x7b\"ambient\":255\x7d".toList ∧
    (run flatObject [1023, 1023] (bootState "GET /sensors HTTP/1.1\r\n\r\n".toList)).serialOut =
      (sendResponse 200 "\x7b\"ambient\":255\x7d".toList (bootState [])).serialOut := by
  decide

set_option maxRecDepth 100000 in
/-- C10 (the code departs from it): after a PUT /leds with the body `{"green":true}`
and a reset, a PUT /leds without `Content-Length` reaches its terminator line with
`contentLength = 0` and green off; `readContent` then takes no byte from the stream but
returns the body of the earlier request, still in the buffer, so the request is answered
204, not 400, and green is switched on. -/
theorem putLeds_sees_stale_body :
    (staleBodyState).contentLength = 0 ∧
    (staleBodyState).method = Method.PUT ∧
    (staleBodyState).path = "/leds".toList ∧
    (staleBodyState).serialIn = "\r\n".toList ∧
    (staleBodyState).green = false ∧
    (readContent { staleBodyState with
        serialIn := (readStringUntil '\n' (staleBodyState).serialIn).2 }).1
      = "\x7b\"green\":true\x7d".toList ∧
    (loop flatObject 1023 staleBodyState).serialIn = [] ∧
    (loop flatObject 1023 staleBodyState).serialOut
      = (staleBodyState).serialOut ++ wireResponse 204 [] ∧
    (loop flatObject 1023 staleBodyState).green = true := by
  decide

/-! ## Reset and the output invariant -/

/-- A response changes the transmitted bytes only. -/
theorem sendResponse_eq (status : Int) (content : Str) (s : Controller) :
    sendResponse status content s =
      { s with serialOut := s.serialOut ++ wireResponse status content
                 ++ (if content.length > 0 then CRLF else []) } := by
  unfold sendResponse
  split_ifs with h
  · simp [serialPrint, serialPrintln, wireResponse, CRLF, List.append_assoc]
  · have hnil : content = [] := List.length_eq_zero.mp (by omega)
    subst hnil
    simp [serialPrint, serialPrintln, wireResponse, CRLF, List.append_assoc]

/-- After `updateLeds` every pin is driven with the intent and not mute. -/
theorem updateLeds_outputsOk (s : Controller) : OutputsOk (updateLeds s) := by
  simp [OutputsOk, updateLeds, digitalWrite, PIN_GREEN, PIN_RED, PIN_YELLOW]

/-- The invariant depends on the lamp fields and the pins only. -/
theorem outputsOk_of_eq (s t : Controller) (hg : t.green = s.green) (hr : t.red = s.red)
    (hy : t.yellow = s.yellow) (hm : t.mute = s.mute) (hp : t.pins = s.pins)
    (h : OutputsOk s) : OutputsOk t := by
  unfold OutputsOk at h ⊢
  rw [hg, hr, hy, hm, hp]
  exact h

/-- Start-up with a valid marker: the settings are loaded, the lamp state is cleared and
the pins are driven accordingly. -/
theorem setup_valid (s : Controller)
    (h : EEPROM.readInt s.eeprom EEPROM_MAGIC_ADDR = MAGIC_NUMBER) :
    setup s =
      { s with green := false, red := false, yellow := false, mute := false,
               contentLength := 0, magic := MAGIC_NUMBER,
               threshold := EEPROM.readBlock s.eeprom EEPROM_THRESHOLD_ADDR,
               hysteresis := EEPROM.readBlock s.eeprom EEPROM_HYSTERESIS_ADDR,
               pins := (setup s).pins } := by
  unfold setup
  rw [readEeprom_valid s h]
  rfl

/-- After start-up the invariant holds and the lamp state is cleared. -/
theorem setup_outputsOk (s : Controller) : OutputsOk (setup s) := by
  unfold setup
  exact updateLeds_outputsOk _

/-- A path that starts with `/reset` is routed to the reset, whatever the method. -/
theorem routeOf_reset (m : Method) (path : Str)
    (hpath : startsWith path "/reset".toList = true) : routeOf m path = Route.reset := by
  unfold startsWith at hpath
  unfold routeOf routeTable
  simp only [List.find?, hpath, Bool.true_and, Bool.true_or]
  rfl

/-- C11: with a valid marker in storage and the stored path starting with `/reset`, for
either method, `parseHttp` on the terminator line writes a 200 response with an empty
body and leaves the controller reinitialized: green, red, yellow and mute false,
`contentLength` 0, the three lamp pins off, threshold and hysteresis equal to the bytes
stored at offsets 2 and 3, the storage itself untouched. -/
theorem reset_reinitializes (parseObject : Str → Option JsonObject) (s : Controller)
    (hline : (readStringUntil '\n' s.serialIn).1 = ['\r'])
    (hpath : startsWith s.path "/reset".toList = true)
    (hmarker : EEPROM.readInt s.eeprom EEPROM_MAGIC_ADDR = MAGIC_NUMBER) :
    (parseHttp parseObject s).serialOut = s.serialOut ++ wireResponse 200 [] ∧
    (parseHttp parseObject s).green = false ∧
    (parseHttp parseObject s).red = false ∧
    (parseHttp parseObject s).yellow = false ∧
    (parseHttp parseObject s).mute = false ∧
    (parseHttp parseObject s).contentLength = 0 ∧
    (parseHttp parseObject s).pins PIN_GREEN = false ∧
    (parseHttp parseObject s).pins PIN_RED = false ∧
    (parseHttp parseObject s).pins PIN_YELLOW = false ∧
    (parseHttp parseObject s).threshold = EEPROM.read (parseHttp parseObject s).eeprom 2 ∧
    (parseHttp parseObject s).hysteresis = EEPROM.read (parseHttp parseObject s).eeprom 3 ∧
    (parseHttp parseObject s).eeprom = s.eeprom := by
  have hmain := parseHttp_terminator parseObject s hline
  rw [routeOf_reset s.method s.path hpath] at hmain
  have hstep : parseHttp parseObject s =
      { setup (sendResponseStatus 200
          { s with serialIn := (readStringUntil '\n' s.serialIn).2 }) with
        contentLength := 0 } := hmain
  rw [sendResponseStatus_eq] at hstep
  have hok := setup_outputsOk
    { s with serialIn := (readStringUntil '\n' s.serialIn).2,
             serialOut := s.serialOut ++ wireResponse 200 [] }
  have hvalid := setup_valid
    { s with serialIn := (readStringUntil '\n' s.serialIn).2,
             serialOut := s.serialOut ++ wireResponse 200 [] } hmarker
  rw [hvalid] at hok
  rw [hstep, hvalid]
  obtain ⟨hg, hr, hy⟩ := hok
  exact ⟨rfl, rfl, rfl, rfl, rfl, rfl, hg, hr, hy, rfl, rfl, rfl⟩

set_option maxRecDepth 100000 in
/-- C11 on a reset request received after PUT /leds has switched green on. -/
theorem reset_reinitializes_witness :
    (readStringUntil '\n' (resetRequest).serialIn).1 = ['\r'] ∧
    startsWith (resetRequest).path "/reset".toList = true ∧
    EEPROM.readInt (resetRequest).eeprom EEPROM_MAGIC_ADDR = MAGIC_NUMBER ∧
    (resetRequest).green = true ∧
    (parseHttp flatObject resetRequest).serialOut
      = (resetRequest).serialOut ++ wireResponse 200 [] ∧
    (parseHttp flatObject resetRequest).green = false :=
  ⟨by decide, by decide, by decide, by decide,
   (reset_reinitializes flatObject resetRequest (by decide) (by decide) (by decide)).1,
   (reset_reinitializes flatObject resetRequest (by decide) (by decide) (by decide)).2.1⟩

/-- One sensor poll keeps the invariant: every change of mute drives the pins. -/
theorem processSensors_outputsOk (raw : Int) (s : Controller) (h : OutputsOk s) :
    OutputsOk (processSensors raw s) := by
  unfold processSensors
  dsimp only
  split_ifs
  · exact updateLeds_outputsOk _
  · exact updateLeds_outputsOk _
  · exact outputsOk_of_eq s _ rfl rfl rfl rfl rfl h

/-- The state `getLeds` produces: the lamp state as a JSON object in a 200 response. -/
theorem getLeds_eq (s : Controller) :
    getLeds s =
      { s with serialOut := s.serialOut ++ wireResponse 200 (printTo
          [("green".toList, JsonValue.bool s.green), ("yellow".toList, JsonValue.bool s.yellow),
           ("red".toList, JsonValue.bool s.red), ("muted".toList, JsonValue.bool s.mute)])
          ++ CRLF } := by
  unfold getLeds sendResponseJson
  rw [sendResponse_eq]
  simp [printTo]

/-- C13: after a PUT /leds whose body parses and names green, red and yellow with the
booleans `bg`, `br`, `bw`, `getLeds` writes a 200 response whose body is the object with
green = `bg`, yellow = `bw`, red = `br` and muted = the current mute flag; `getLeds`
changes no lamp state, settings or storage in any state. -/
theorem getLeds_after_putLeds (parseObject : Str → Option JsonObject) (s : Controller)
    (json : JsonObject) (bg br bw : Bool)
    (hparse : parseObject (readContent s).1 = some json)
    (hg : json.lookup "green".toList = some (JsonValue.bool bg))
    (hr : json.lookup "red".toList = some (JsonValue.bool br))
    (hw : json.lookup "yellow".toList = some (JsonValue.bool bw)) :
    getLeds (putLeds parseObject s) =
      sendResponseJson 200
        [("green".toList, JsonValue.bool bg), ("yellow".toList, JsonValue.bool bw),
         ("red".toList, JsonValue.bool br),
         ("muted".toList, JsonValue.bool (putLeds parseObject s).mute)]
        (putLeds parseObject s) ∧
    (getLeds (putLeds parseObject s)).serialOut =
      (putLeds parseObject s).serialOut ++ wireResponse 200 (printTo
        [("green".toList, JsonValue.bool bg), ("yellow".toList, JsonValue.bool bw),
         ("red".toList, JsonValue.bool br),
         ("muted".toList, JsonValue.bool (putLeds parseObject s).mute)]) ++ CRLF ∧
    (putLeds parseObject s).mute = s.mute ∧
    (∀ u : Controller,
      (getLeds u).green = u.green ∧ (getLeds u).red = u.red ∧
      (getLeds u).yellow = u.yellow ∧ (getLeds u).mute = u.mute ∧
      (getLeds u).threshold = u.threshold ∧ (getLeds u).hysteresis = u.hysteresis ∧
      (getLeds u).eeprom = u.eeprom ∧ (getLeds u).pins = u.pins) := by
  have hput := putLeds_success parseObject s json hparse
  obtain ⟨hcg, hvg⟩ := getBool_of_lookup json _ bg hg
  obtain ⟨hcr, hvr⟩ := getBool_of_lookup json _ br hr
  obtain ⟨hcw, hvw⟩ := getBool_of_lookup json _ bw hw
  have hgreen : (putLeds parseObject s).green = bg := by
    rw [hput]
    show (if containsKey json "green".toList = true then getBool json "green".toList
      else s.green) = bg
    rw [hcg, hvg]
    rfl
  have hred : (putLeds parseObject s).red = br := by
    rw [hput]
    show (if containsKey json "red".toList = true then getBool json "red".toList
      else s.red) = br
    rw [hcr, hvr]
    rfl
  have hyellow : (putLeds parseObject s).yellow = bw := by
    rw [hput]
    show (if containsKey json "yellow".toList = true then getBool json "yellow".toList
      else s.yellow) = bw
    rw [hcw, hvw]
    rfl
  have hmute : (putLeds parseObject s).mute = s.mute := by
    rw [hput]; rfl
  have hcall : getLeds (putLeds parseObject s) =
      sendResponseJson 200
        [("green".toList, JsonValue.bool bg), ("yellow".toList, JsonValue.bool bw),
         ("red".toList, JsonValue.bool br),
         ("muted".toList, JsonValue.bool (putLeds parseObject s).mute)]
        (putLeds parseObject s) := by
    unfold getLeds
    rw [hgreen, hred, hyellow]
  refine ⟨hcall, ?_, hmute, ?_⟩
  · rw [getLeds_eq, hgreen, hred, hyellow]
  · intro u
    rw [getLeds_eq]
    exact ⟨rfl, rfl, rfl, rfl, rfl, rfl, rfl, rfl⟩

/-- C13 on the body naming all three lamps: the response body shows green and yellow on,
red off, not muted. -/
theorem getLeds_after_putLeds_witness :
    flatObject (readContent allLampsBody).1 = some allLampsJson ∧
    (getLeds (putLeds flatObject allLampsBody)).serialOut =
      (putLeds flatObject allLampsBody).serialOut ++ wireResponse 200 (printTo
        [("green".toList, JsonValue.bool true), ("yellow".toList, JsonValue.bool true),
         ("red".toList, JsonValue.bool false),
         ("muted".toList, JsonValue.bool (putLeds flatObject allLampsBody).mute)]) ++ CRLF ∧
    printTo
        [("green".toList, JsonValue.bool true), ("yellow".toList, JsonValue.bool true),
         ("red".toList, JsonValue.bool false),
         ("muted".toList, JsonValue.bool (putLeds flatObject allLampsBody).mute)]
      = "\x7b\"green\":true,\"yellow\":true,\"red\":false,\"muted\":false\x7d".toList :=
  ⟨by decide,
   (getLeds_after_putLeds flatObject allLampsBody allLampsJson true false true
      (by decide) (by decide) (by decide) (by decide)).2.1,
   by decide⟩

/-- The comparisons of `processSensors` for settings that are bytes, without the casts. -/
theorem processSensors_mute_bytes (raw : Int) (s : Controller)
    (ht : s.threshold ≤ 255) (hh : s.hysteresis ≤ 255) :
    (processSensors raw s).mute =
      if s.mute && decide ((processSensors raw s).ambient >
            (s.threshold : Int) + (s.hysteresis : Int)) then false
      else if !s.mute && decide ((processSensors raw s).ambient <
            (s.threshold : Int) - (s.hysteresis : Int)) then true
      else s.mute := by
  have hsum : toInt16 ((s.threshold : Int) + (s.hysteresis : Int))
      = (s.threshold : Int) + (s.hysteresis : Int) := by
    unfold toInt16; omega
  have hdiff : toInt16 ((s.threshold : Int) - (s.hysteresis : Int))
      = (s.threshold : Int) - (s.hysteresis : Int) := by
    unfold toInt16; omega
  have hmute := processSensors_mute raw s
  rw [hsum, hdiff] at hmute
  exact hmute

/-- C14: for threshold and hysteresis in [0,255], every ambient value `a` in [0,255]
(each the image of a raw sample) and every prior mute flag, the mute flag after a
`processSensors` step that reads `a` is the one computed with the lower bound
`max 0 (threshold - hysteresis)` and the upper bound `min 255 (threshold + hysteresis)`
over the integers; with hysteresis above threshold an Active controller stays Active,
and with threshold + hysteresis at least 255 a Muted controller stays Muted. -/
theorem processSensors_clamped (t h : Nat) (a : Int) (m : Bool)
    (ht : t ≤ 255) (hh : h ≤ 255) (ha0 : 0 ≤ a) (ha1 : a ≤ 255) :
    (∃ raw : Int, 0 ≤ raw ∧ raw ≤ 1023 ∧ toInt16 (map raw 0 1023 0 255) = a) ∧
    ∀ (s : Controller) (raw : Int),
      s.threshold = t → s.hysteresis = h → s.mute = m →
      (processSensors raw s).ambient = a →
      (processSensors raw s).mute = clampedMute t h a m ∧
      (h > t → m = false → (processSensors raw s).mute = false) ∧
      (t + h ≥ 255 → m = true → (processSensors raw s).mute = true) := by
  refine ⟨map_onto a ha0 ha1, ?_⟩
  intro s raw hst hsh hsm hsa
  have hmute := processSensors_mute_bytes raw s (by omega) (by omega)
  rw [hsa, hst, hsh, hsm] at hmute
  rw [hmute]
  unfold clampedMute
  cases m
  · simp
    omega
  · simp
    omega

/-- C14 at threshold 3, hysteresis 5, ambient 10, Active: the controller stays Active,
where bounds wrapped modulo 256 would mute it. -/
theorem processSensors_clamped_witness :
    clampedMute 3 5 10 false = false ∧ wrappedMute 3 5 10 false = true ∧
    (∃ raw : Int, 0 ≤ raw ∧ raw ≤ 1023 ∧ toInt16 (map raw 0 1023 0 255) = 10) ∧
    ∀ (s : Controller) (raw : Int),
      s.threshold = 3 → s.hysteresis = 5 → s.mute = false →
      (processSensors raw s).ambient = 10 →
      (processSensors raw s).mute = clampedMute 3 5 10 false ∧
      (5 > 3 → false = false → (processSensors raw s).mute = false) ∧
      (3 + 5 ≥ 255 → false = true → (processSensors raw s).mute = true) :=
  ⟨by decide, by decide,
   processSensors_clamped 3 5 10 false (by decide) (by decide) (by decide) (by decide)⟩

/-- The mapped sample of a raw value that is not negative: `raw * 255 / 1023`. -/
theorem map_eq (r : Int) (h0 : 0 ≤ r) : map r 0 1023 0 255 = r * 255 / 1023 := by
  unfold map
  rw [Int.tdiv_eq_ediv (by omega) (by omega)]
  simp only [sub_zero, add_zero]

/-- C16: for a raw sample `r` in [0,1023] the ambient value `processSensors` stores is
`map r 0 1023 0 255 = (r * 255) / 1023` with truncating division; it lies in [0,255],
is 0 at 0 and 255 at 1023, and does not decrease when `r` grows. -/
theorem ambient_range (r : Int) (h0 : 0 ≤ r) (h1 : r ≤ 1023) :
    map r 0 1023 0 255 = Int.tdiv (r * 255) 1023 ∧
    (∀ s : Controller, (processSensors r s).ambient = Int.tdiv (r * 255) 1023) ∧
    0 ≤ map r 0 1023 0 255 ∧ map r 0 1023 0 255 ≤ 255 ∧
    map 0 0 1023 0 255 = 0 ∧ map 1023 0 1023 0 255 = 255 ∧
    (∀ r2 : Int, r ≤ r2 → r2 ≤ 1023 → map r 0 1023 0 255 ≤ map r2 0 1023 0 255) := by
  have hdiv : Int.tdiv (r * 255) 1023 = r * 255 / 1023 :=
    Int.tdiv_eq_ediv (by omega) (by omega)
  have hmap := map_eq r h0
  refine ⟨by rw [hmap, hdiv], ?_, by rw [hmap]; omega, by rw [hmap]; omega,
    by decide, by decide, ?_⟩
  · intro s
    rw [processSensors_ambient, hmap, hdiv]
    unfold toInt16
    omega
  · intro r2 h12 h2
    rw [hmap, map_eq r2 (by omega)]
    omega

/-- C16 at the raw sample 378, which maps to 94. -/
theorem ambient_range_witness :
    map 378 0 1023 0 255 = 94 ∧
    map 378 0 1023 0 255 = Int.tdiv (378 * 255) 1023 ∧
    0 ≤ map 378 0 1023 0 255 ∧ map 378 0 1023 0 255 ≤ 255 :=
  ⟨by decide, (ambient_range 378 (by decide) (by decide)).1,
   (ambient_range 378 (by decide) (by decide)).2.2.1,
   (ambient_range 378 (by decide) (by decide)).2.2.2.1⟩

/-- One sensor poll keeps the intents, the settings and the storage. -/
theorem processSensors_frame (raw : Int) (s : Controller) :
    (processSensors raw s).green = s.green ∧ (processSensors raw s).red = s.red ∧
    (processSensors raw s).yellow = s.yellow ∧
    (processSensors raw s).threshold = s.threshold ∧
    (processSensors raw s).hysteresis = s.hysteresis ∧
    (processSensors raw s).eeprom = s.eeprom := by
  unfold processSensors
  dsimp only
  split_ifs <;> exact ⟨rfl, rfl, rfl, rfl, rfl, rfl⟩

/-- Sensor polls in a row keep the intents, the settings, the storage and the invariant. -/
theorem senseAll_frame (raws : List Int) (s : Controller) :
    (senseAll raws s).green = s.green ∧ (senseAll raws s).red = s.red ∧
    (senseAll raws s).yellow = s.yellow ∧
    (senseAll raws s).threshold = s.threshold ∧
    (senseAll raws s).hysteresis = s.hysteresis ∧
    (senseAll raws s).eeprom = s.eeprom ∧
    (OutputsOk s → OutputsOk (senseAll raws s)) := by
  induction raws generalizing s with
  | nil => exact ⟨rfl, rfl, rfl, rfl, rfl, rfl, id⟩
  | cons raw raws ih =>
    obtain ⟨hg, hr, hy, ht, hh, he⟩ := processSensors_frame raw s
    obtain ⟨ig, ir, iy, it, ih2, ie, iok⟩ := ih (processSensors raw s)
    simp only [senseAll]
    exact ⟨ig.trans hg, ir.trans hr, iy.trans hy, it.trans ht, ih2.trans hh, ie.trans he,
      fun hok => iok (processSensors_outputsOk raw s hok)⟩

/-- A sensor poll that changes mute drives the pins: the invariant holds after it. -/
theorem processSensors_transition_outputsOk (raw : Int) (s : Controller)
    (h : (processSensors raw s).mute ≠ s.mute) : OutputsOk (processSensors raw s) := by
  unfold processSensors at h ⊢
  dsimp only at h ⊢
  split_ifs at h ⊢
  · exact updateLeds_outputsOk _
  · exact updateLeds_outputsOk _
  · exact absurd rfl h

/-- After sensor polls from a state in which the invariant holds, the intents are the
stored ones, the pins are off while mute is true and show the intents otherwise. -/
theorem senseAll_outputs (raws : List Int) (s : Controller) (hok : OutputsOk s) :
    ((senseAll raws s).green = s.green ∧ (senseAll raws s).red = s.red ∧
      (senseAll raws s).yellow = s.yellow) ∧
    ((senseAll raws s).mute = true →
      (senseAll raws s).pins PIN_GREEN = false ∧
      (senseAll raws s).pins PIN_RED = false ∧
      (senseAll raws s).pins PIN_YELLOW = false) ∧
    ((senseAll raws s).mute = false →
      (senseAll raws s).pins PIN_GREEN = s.green ∧
      (senseAll raws s).pins PIN_RED = s.red ∧
      (senseAll raws s).pins PIN_YELLOW = s.yellow) := by
  obtain ⟨hg, hr, hy, _, _, _, hkeep⟩ := senseAll_frame raws s
  obtain ⟨pg, pr, py⟩ := hkeep hok
  refine ⟨⟨hg, hr, hy⟩, ?_, ?_⟩
  · intro hm
    rw [pg, pr, py, hm]
    simp
  · intro hm
    rw [pg, pr, py, hm, hg, hr, hy]
    simp

/-- C20: for every controller state and every raw sample `processSensors` keeps green,
red, yellow, threshold, hysteresis and the persisted storage.  When a sample mutes the
controller, then after any further sensor polls the intents are still those stored
before muting, all three lamp pins are off while mute is true, and once a sample has
unmuted the controller the pins are driven with those intents.  The same holds from
any state in which the pins agree with intents and mute. -/
theorem mute_keeps_intents (s : Controller) :
    (∀ raw : Int,
      (processSensors raw s).green = s.green ∧ (processSensors raw s).red = s.red ∧
      (processSensors raw s).yellow = s.yellow ∧
      (processSensors raw s).threshold = s.threshold ∧
      (processSensors raw s).hysteresis = s.hysteresis ∧
      (processSensors raw s).eeprom = s.eeprom) ∧
    (∀ (raw : Int) (raws : List Int),
      s.mute = false → (processSensors raw s).mute = true →
      ((senseAll (raw :: raws) s).green = s.green ∧
        (senseAll (raw :: raws) s).red = s.red ∧
        (senseAll (raw :: raws) s).yellow = s.yellow) ∧
      ((senseAll (raw :: raws) s).mute = true →
        (senseAll (raw :: raws) s).pins PIN_GREEN = false ∧
        (senseAll (raw :: raws) s).pins PIN_RED = false ∧
        (senseAll (raw :: raws) s).pins PIN_YELLOW = false) ∧
      ((senseAll (raw :: raws) s).mute = false →
        (senseAll (raw :: raws) s).pins PIN_GREEN = s.green ∧
        (senseAll (raw :: raws) s).pins PIN_RED = s.red ∧
        (senseAll (raw :: raws) s).pins PIN_YELLOW = s.yellow)) ∧
    (∀ raws : List Int, OutputsOk s →
      ((senseAll raws s).green = s.green ∧ (senseAll raws s).red = s.red ∧
        (senseAll raws s).yellow = s.yellow) ∧
      ((senseAll raws s).mute = true →
        (senseAll raws s).pins PIN_GREEN = false ∧
        (senseAll raws s).pins PIN_RED = false ∧
        (senseAll raws s).pins PIN_YELLOW = false) ∧
      ((senseAll raws s).mute = false →
        (senseAll raws s).pins PIN_GREEN = s.green ∧
        (senseAll raws s).pins PIN_RED = s.red ∧
        (senseAll raws s).pins PIN_YELLOW = s.yellow)) := by
  refine ⟨fun raw => processSensors_frame raw s, ?_, fun raws hok => senseAll_outputs raws s hok⟩
  intro raw raws hactive hmuted
  have hok : OutputsOk (processSensors raw s) :=
    processSensors_transition_outputsOk raw s (by rw [hactive, hmuted]; decide)
  obtain ⟨fg, fr, fy, _, _, _⟩ := processSensors_frame raw s
  have hrest := senseAll_outputs raws (processSensors raw s) hok
  rw [fg, fr, fy] at hrest
  exact hrest

set_option maxRecDepth 100000 in
/-- C20 on the state with green switched on: a dark sample mutes and switches the
green pin off, a bright sample after it unmutes and the green pin is on again. -/
theorem mute_keeps_intents_witness :
    (greenOnState).green = true ∧ (greenOnState).mute = false ∧
    (processSensors 0 greenOnState).mute = true ∧
    (senseAll [0] greenOnState).mute = true ∧
    (senseAll [0] greenOnState).pins PIN_GREEN = false ∧
    (senseAll [0, 1023] greenOnState).mute = false ∧
    (senseAll [0, 1023] greenOnState).pins PIN_GREEN = (greenOnState).green :=
  ⟨by decide, by decide, by decide, by decide,
   (((mute_keeps_intents greenOnState).2.1 0 [] (by decide) (by decide)).2.1 (by decide)).1,
   by decide,
   (((mute_keeps_intents greenOnState).2.1 0 [1023] (by decide) (by decide)).2.2
      (by decide)).1⟩

/-! ## The path of a request line -/

/-- Scanning for a character stops at its first occurrence. -/
theorem takeWhile_until (c : Char) (l r : Str) (h : c ∉ l) :
    (l ++ c :: r).takeWhile (fun x => x != c) = l := by
  induction l with
  | nil => simp
  | cons a l ih =>
    have ha : a ≠ c := fun hac => h (by simp [hac])
    have hl : c ∉ l := fun hcl => h (List.mem_cons_of_mem a hcl)
    have hb : (a != c) = true := by simp [ha]
    simp only [List.cons_append, List.takeWhile_cons, hb, if_true, ih hl]

/-- Scanning a text without the character takes all of it. -/
theorem takeWhile_all (c : Char) (l : Str) (h : c ∉ l) :
    l.takeWhile (fun x => x != c) = l := by
  induction l with
  | nil => rfl
  | cons a l ih =>
    have ha : a ≠ c := fun hac => h (by simp [hac])
    have hl : c ∉ l := fun hcl => h (List.mem_cons_of_mem a hcl)
    have hb : (a != c) = true := by simp [ha]
    simp only [List.cons_append, List.takeWhile_cons, hb, if_true, ih hl]

/-- Dropping a prefix and the character after it. -/
theorem drop_past (c : Char) (l r : Str) : (l ++ c :: r).drop (l.length + 1) = r := by
  induction l with
  | nil => rfl
  | cons a l _ => simp

/-- The first space of a line is right after a first token without spaces. -/
theorem indexOf_first (M X : Str) (hM : ' ' ∉ M) :
    indexOf (M ++ ' ' :: X) ' ' 0 = (M.length : Int) := by
  unfold indexOf
  simp only [List.drop_zero, takeWhile_until ' ' M X hM]
  simp

/-- The second space of a line is right after a second token without spaces. -/
theorem indexOf_second (M P R : Str) (hP : ' ' ∉ P) :
    indexOf (M ++ ' ' :: (P ++ ' ' :: R)) ' ' (M.length + 1)
      = ((M.length + 1 + P.length : Nat) : Int) := by
  unfold indexOf
  simp only [drop_past ' ' M (P ++ ' ' :: R), takeWhile_until ' ' P R hP]
  simp

/-- There is no second space when the rest of the line has none. -/
theorem indexOf_second_none (M P : Str) (hP : ' ' ∉ P) :
    indexOf (M ++ ' ' :: P) ' ' (M.length + 1) = -1 := by
  unfold indexOf
  simp only [drop_past ' ' M P, takeWhile_all ' ' P hP]
  simp

/-- Taking up to the end of the second token. -/
theorem take_two_tokens (M P R : Str) :
    (M ++ ' ' :: (P ++ R)).take (M.length + 1 + P.length) = M ++ ' ' :: P := by
  induction M with
  | nil =>
    simp only [List.nil_append, List.length_nil, Nat.zero_add]
    rw [Nat.add_comm, List.take_succ_cons, List.take_left]
  | cons a M ih =>
    simp only [List.cons_append, List.length_cons]
    rw [show M.length + 1 + 1 + P.length = (M.length + 1 + P.length) + 1 by omega,
      List.take_succ_cons, ih]

/-- C15: for a line `M ++ " " ++ P ++ " " ++ R` with no space in `M` and `P`,
`parsePath` returns `P`, the token between the first and the second space; for a line
`M ++ " " ++ P` with no second space it returns `P`, the rest after the first space. -/
theorem parsePath_token (M P R : Str) (hM : ' ' ∉ M) (hP : ' ' ∉ P) :
    parsePath (M ++ ' ' :: (P ++ ' ' :: R)) = P ∧ parsePath (M ++ ' ' :: P) = P := by
  have hfirst : ((M.length : Int) + 1).toNat = M.length + 1 := by omega
  constructor
  · unfold parsePath
    simp only [indexOf_first M _ hM, hfirst, indexOf_second M P R hP]
    have hne : ¬ (((M.length + 1 + P.length : Nat) : Int) = -1) := by omega
    simp only [hne, if_false, Int.toNat_ofNat]
    unfold substring
    have hle : ¬ (M.length + 1 > M.length + 1 + P.length) := by omega
    simp only [hle, if_false]
    rw [take_two_tokens M P (' ' :: R), drop_past]
  · unfold parsePath
    simp only [indexOf_first M _ hM, hfirst, indexOf_second_none M P hP, if_true,
      Int.toNat_ofNat]
    unfold substring
    have hle : ¬ (M.length + 1 > (M ++ ' ' :: P).length) := by
      simp only [List.length_append, List.length_cons]
      omega
    simp only [hle, if_false, List.take_length, drop_past]

/-- C15 on the request line `GET /leds HTTP/1.1` followed by a carriage return. -/
theorem parsePath_token_witness :
    ' ' ∉ "GET".toList ∧ ' ' ∉ "/leds".toList ∧
    parsePath "GET /leds HTTP/1.1\r".toList = "/leds".toList ∧
    parsePath "GET /leds".toList = "/leds".toList :=
  ⟨by decide, by decide,
   (parsePath_token "GET".toList "/leds".toList "HTTP/1.1\r".toList
      (by decide) (by decide)).1,
   (parsePath_token "GET".toList "/leds".toList [] (by decide) (by decide)).2⟩

/-! ## The request state between requests -/

/-- A content length that is not negative asks for at most 100 bytes. -/
theorem toSizeT_bounded (c : Int) (h : 0 ≤ c) : toSizeT (min c BUFFER_LENGTH) ≤ 100 := by
  unfold toSizeT BUFFER_LENGTH
  omega

set_option maxRecDepth 100000 in
/-- C17 (the code departs from it): the header line `Content-Length: -1` leaves
`contentLength = -1`; `readContent` then asks the stream for
`(size_t) min(-1, 100) = 65535` bytes, and with 150 bytes waiting all 150 are stored
into the buffer of 101. -/
theorem negative_content_length_overflows :
    Reachable flatObject negativeLengthState ∧
    (negativeLengthState).contentLength = -1 ∧
    toSizeT (min (negativeLengthState).contentLength BUFFER_LENGTH) = 65535 ∧
    (negativeLengthState).buffer.length = 101 ∧
    (readContent { negativeLengthState with
        serialIn := (readStringUntil '\n' (negativeLengthState).serialIn).2 }).2.buffer
      = List.replicate 150 'A' :=
  ⟨Reachable.pass _ 1023 (Reachable.pass _ 1023
     (Reachable.boot blankEeprom negativeLengthInput)),
   by decide, by decide, by decide, by decide⟩

set_option maxRecDepth 100000 in
/-- C18 (the code departs from it): after a PUT with a body of 16 bytes, a PUT /leds with
`Content-Length: 14` and the body `{"green":true}` reaches its terminator line;
`readContent` reads the 14 bytes and returns 16, the new body followed by the last two
bytes of the earlier one. -/
theorem readContent_keeps_leftover :
    Reachable flatObject leftoverState ∧
    (leftoverState).contentLength = 14 ∧
    (readStringUntil '\n' (leftoverState).serialIn).2 = "\x7b\"green\":true\x7d".toList ∧
    (readContent { leftoverState with
        serialIn := (readStringUntil '\n' (leftoverState).serialIn).2 }).1
      = "\x7b\"green\":true\x7d0\x7d".toList ∧
    (readContent { leftoverState with
        serialIn := (readStringUntil '\n' (leftoverState).serialIn).2 }).1.length = 16 :=
  ⟨Reachable.pass _ 1023 (Reachable.pass _ 1023 (Reachable.pass _ 1023
     (Reachable.pass _ 1023 (Reachable.pass _ 1023
       (Reachable.boot blankEeprom leftoverInput))))),
   by decide, by decide, by decide, by decide⟩

set_option maxRecDepth 100000 in
/-- C19 (the code departs from it): after a PUT /leds that switched green on, the lines
of a POST /leds request leave method PUT and path `/leds` in place; on its terminator
line the request is dispatched to `putLeds`, answered 204, not 404, and green is
switched off. -/
theorem post_routed_by_previous_request :
    Reachable flatObject postState ∧
    (postState).green = true ∧
    (postState).method = Method.PUT ∧
    (postState).path = "/leds".toList ∧
    (readStringUntil '\n' (postState).serialIn).1 = ['\r'] ∧
    (loop flatObject 1023 postState).serialOut
      = (postState).serialOut ++ wireResponse 204 [] ∧
    (loop flatObject 1023 postState).green = false :=
  ⟨Reachable.pass _ 1023 (Reachable.pass _ 1023 (Reachable.pass _ 1023
     (Reachable.pass _ 1023 (Reachable.pass _ 1023
       (Reachable.boot blankEeprom postInput))))),
   by decide, by decide, by decide, by decide, by decide, by decide⟩

/-! ## The values PUT /settings stores and GET /settings reports -/

set_option maxRecDepth 100000 in
/-- C5 (the code departs from it): the body that is a lone opening brace does not parse,
and on a fresh buffer PUT /leds with it is answered 400; but after a PUT /leds with the
body `{"green":true}` and a reset, the same request, with `Content-Length: 1`, is
answered 204 and green is switched on: `readContent` stores the brace over the first
byte of the earlier body and returns the whole earlier body. -/
theorem malformed_body_answered_204 :
    flatObject [LBRACE] = none ∧
    (putLeds flatObject malformedBody).serialOut
      = (malformedBody).serialOut ++ wireResponse 400 [] ∧
    Reachable flatObject braceAfterGreenState ∧
    (braceAfterGreenState).overrun = false ∧
    (braceAfterGreenState).method = Method.PUT ∧
    (braceAfterGreenState).path = "/leds".toList ∧
    (braceAfterGreenState).contentLength = 1 ∧
    (braceAfterGreenState).serialIn = ['\r', '\n', LBRACE] ∧
    (braceAfterGreenState).green = false ∧
    (readContent { braceAfterGreenState with
        serialIn := (readStringUntil '\n' (braceAfterGreenState).serialIn).2 }).1
      = "\x7b\"green\":true\x7d".toList ∧
    (loop flatObject 1023 braceAfterGreenState).serialOut
      = (braceAfterGreenState).serialOut ++ wireResponse 204 [] ∧
    (loop flatObject 1023 braceAfterGreenState).green = true :=
  ⟨by decide, by decide,
   Reachable.pass _ 1023 (Reachable.pass _ 1023 (Reachable.pass _ 1023
     (Reachable.pass _ 1023 (Reachable.pass _ 1023 (Reachable.pass _ 1023
       (Reachable.pass _ 1023 (Reachable.boot blankEeprom braceAfterGreenInput))))))),
   by decide, by decide, by decide, by decide, by decide, by decide, by decide, by decide,
   by decide⟩

end SignalTower
